import Mathlib

/-!
# Paradise / Western Digital (S)VGA extended registers

A shallow embedding of `src/devices/video/pc_vga_paradise.cpp`:
the PVGA1A device (`pvga1a_vga_device`) and the WD90C00 device
(`wd90c00_vga_device`) built on it.

Conventions.
* `u8` values and `offs_t` values are natural numbers; `offs_t` arithmetic is
  reduced modulo `2 ^ 32` where the source adds to an offset.
* A handler that only logs is a pure function of the device state.
* The base class `svga_device` is not part of the translated file.  Its state
  is split into the two `svga` fields the source touches (`svga.rgb8_en`,
  `svga.bank_w`) and an abstract remainder of type `β`; its memory primitives
  and register handlers are the fields of `svga_device β` and act on the
  remainder only.
* A `memory_view` is represented by the number of the variant last selected.
  An access that the selected variant does not handle reaches the map beneath
  the view.
-/

namespace Paradise

/-- Modulus of `offs_t` arithmetic, `2 ^ 32` (`offs_t` is an unsigned 32-bit
integer). -/
def OFFS_T_MOD : Nat := 0x100000000

/-- The fields of the base class's `svga` record used by the source:
`svga.rgb8_en` (tested as a condition, assigned from `BIT(data, 0)`) and
`svga.bank_w`. -/
structure svga_t where
  rgb8_en : Bool
  bank_w : Nat
  deriving DecidableEq, Repr

/-- The primitives of the base class `svga_device` called by the source, over
the abstract remainder `β` of the base object's state.  A read gives the byte
read and the state after the read. -/
structure svga_device (β : Type) where
  /-- `svga_device::mem_linear_r(offset)` -/
  mem_linear_r : β → Nat → Nat × β
  /-- `svga_device::mem_linear_w(offset, data)` -/
  mem_linear_w : β → Nat → Nat → β
  /-- `svga_device::mem_r(offset)` -/
  mem_r : β → Nat → Nat × β
  /-- `svga_device::mem_w(offset, data)` -/
  mem_w : β → Nat → Nat → β
  /-- read handlers installed by `svga_device::gc_map` -/
  gc_r : β → Nat → Nat × β
  /-- write handlers installed by `svga_device::gc_map` -/
  gc_w : β → Nat → Nat → β
  /-- read handlers installed by the inherited `crtc_map` -/
  crtc_r : β → Nat → Nat × β
  /-- write handlers installed by the inherited `crtc_map` -/
  crtc_w : β → Nat → Nat → β
  /-- the part of `svga_device::device_reset` acting on the remainder -/
  device_reset : β → β

/-- State of a `pvga1a_vga_device`.  `m_ext_gc_view` is the variant last passed
to `m_ext_gc_view.select`. -/
structure pvga1a_vga_device (β : Type) where
  vga : β
  svga : svga_t
  m_memory_size : Nat
  m_video_control : Nat
  m_video_select : Nat
  m_crtc_lock : Nat
  m_ext_gc_unlock : Bool
  m_ext_gc_view : Nat

/-- State of a `wd90c00_vga_device`.  `m_ext_crtc_view` is the variant last
passed to `m_ext_crtc_view.select`; `pr12_scratch` is the byte backing the
`.ram()` entry installed at `0x2b` in variant 1 of that view. -/
structure wd90c00_vga_device (β : Type) extends pvga1a_vga_device β where
  m_pr10_scratch : Nat
  m_ext_crtc_write_unlock : Bool
  m_ext_crtc_view : Nat
  pr12_scratch : Nat

/-- Conversion of a `bool` argument to the `int` taken by `memory_view::select`. -/
def bool_to_int (b : Bool) : Nat := if b then 1 else 0

/-- `BIT(x, n)`: bit `n` of `x`, as a truth value. -/
def BIT (x n : Nat) : Bool := (x >>> n) &&& 1 != 0

/-- Modelled from the spec: the register maps beneath the two views
(`svga_device::gc_map` and the inherited `crtc_map`) are not among the source
files.  By §6 of the spec the device claims graphics-controller offsets
`0x09–0x0F` and CRT-controller offsets `0x29–0x3F`, so the baseline maps hold
no handler there; by §4.2 and §7 a read that reaches no handler yields the
sentinel `0xFF` (and a write that reaches no handler is dropped). -/
def unmap_value : Nat := 0xff

/-- Modelled from the spec: `svga_device::device_reset` is not among the source
files.  By §3 and §8 of the spec, device reset leaves `BankSelector == 0` and
`WindowEnable == false`; the source's own `device_reset` assigns neither, so
both are produced by the base class's reset.  The rest of the base object is
reset by the parameter `B.device_reset`. -/
def svga_device_device_reset {β : Type} (B : svga_device β)
    (s : pvga1a_vga_device β) : pvga1a_vga_device β :=
  { s with vga := B.device_reset s.vga, svga := { rgb8_en := false, bank_w := 0 } }

namespace pvga1a_vga_device

variable {β : Type}

/-- `pvga1a_vga_device::device_reset` -/
def device_reset (B : svga_device β) (s : pvga1a_vga_device β) : pvga1a_vga_device β :=
  let s := svga_device_device_reset B s
  { s with
    m_memory_size := 0
    m_video_control := 0
    m_video_select := 0
    m_crtc_lock := 0
    m_ext_gc_unlock := false
    m_ext_gc_view := 0 }

/-- `pvga1a_vga_device::mem_r` -/
def mem_r (B : svga_device β) (s : pvga1a_vga_device β) (offset : Nat) :
    Nat × pvga1a_vga_device β :=
  if s.svga.rgb8_en then
    let r := B.mem_linear_r s.vga ((offset + s.svga.bank_w * 0x1000) % OFFS_T_MOD)
    (r.1, { s with vga := r.2 })
  else
    let r := B.mem_r s.vga offset
    (r.1, { s with vga := r.2 })

/-- `pvga1a_vga_device::mem_w` -/
def mem_w (B : svga_device β) (s : pvga1a_vga_device β) (offset data : Nat) :
    pvga1a_vga_device β :=
  if s.svga.rgb8_en then
    { s with vga := B.mem_linear_w s.vga ((offset + s.svga.bank_w * 0x1000) % OFFS_T_MOD) data }
  else
    { s with vga := B.mem_w s.vga offset data }

/-- `pvga1a_vga_device::address_offset_r` -/
def address_offset_r (s : pvga1a_vga_device β) (offset : Nat) : Nat :=
  if offset = 0 then s.svga.bank_w &&& 0x7f else 0

/-- `pvga1a_vga_device::address_offset_w` -/
def address_offset_w (s : pvga1a_vga_device β) (offset data : Nat) : pvga1a_vga_device β :=
  if offset = 0 then { s with svga := { s.svga with bank_w := data &&& 0x7f } } else s

/-- `pvga1a_vga_device::memory_size_r` -/
def memory_size_r (s : pvga1a_vga_device β) : Nat :=
  0xc0 ||| (s.m_memory_size &&& 0x3f)

/-- `pvga1a_vga_device::memory_size_w` -/
def memory_size_w (s : pvga1a_vga_device β) (data : Nat) : pvga1a_vga_device β :=
  { s with m_memory_size := data }

/-- `pvga1a_vga_device::video_select_r` -/
def video_select_r (s : pvga1a_vga_device β) : Nat := s.m_video_select

/-- `pvga1a_vga_device::video_select_w` -/
def video_select_w (s : pvga1a_vga_device β) (data : Nat) : pvga1a_vga_device β :=
  { s with m_video_select := data }

/-- `pvga1a_vga_device::crtc_lock_r` -/
def crtc_lock_r (s : pvga1a_vga_device β) : Nat := s.m_crtc_lock

/-- `pvga1a_vga_device::crtc_lock_w` -/
def crtc_lock_w (s : pvga1a_vga_device β) (data : Nat) : pvga1a_vga_device β :=
  { s with m_crtc_lock := data }

/-- `pvga1a_vga_device::video_control_r` -/
def video_control_r (s : pvga1a_vga_device β) : Nat := s.m_video_control

/-- `pvga1a_vga_device::video_control_w` -/
def video_control_w (s : pvga1a_vga_device β) (data : Nat) : pvga1a_vga_device β :=
  { s with m_video_control := data, svga := { s.svga with rgb8_en := BIT data 0 } }

/-- `pvga1a_vga_device::ext_gc_status_r` -/
def ext_gc_status_r (s : pvga1a_vga_device β) : Nat :=
  if s.m_ext_gc_unlock then 0x05 else 0x00

/-- `pvga1a_vga_device::ext_gc_unlock_w` -/
def ext_gc_unlock_w (s : pvga1a_vga_device β) (data : Nat) : pvga1a_vga_device β :=
  let unlock : Bool := data &&& 0x7 == 5
  { s with m_ext_gc_unlock := unlock, m_ext_gc_view := bool_to_int unlock }

/-- Read side of variant 1 of `m_ext_gc_view` (offsets `0x09..0x0e`); the
handler offset is the address minus the start of the handler's range. -/
def ext_gc_view1_r (s : pvga1a_vga_device β) (addr : Nat) : Nat :=
  if addr ≤ 0x0a then address_offset_r s (addr - 0x09)
  else if addr = 0x0b then memory_size_r s
  else if addr = 0x0c then video_select_r s
  else if addr = 0x0d then crtc_lock_r s
  else video_control_r s

/-- Write side of variant 1 of `m_ext_gc_view` (offsets `0x09..0x0e`). -/
def ext_gc_view1_w (s : pvga1a_vga_device β) (addr data : Nat) : pvga1a_vga_device β :=
  if addr ≤ 0x0a then address_offset_w s (addr - 0x09) data
  else if addr = 0x0b then memory_size_w s data
  else if addr = 0x0c then video_select_w s data
  else if addr = 0x0d then crtc_lock_w s data
  else video_control_w s data

/-- Read access to the graphics-controller register space built by
`pvga1a_vga_device::gc_map`.  Variant 0 of the view answers every read in
`0x09..0x0e` with `0xff`; variant 1 routes to the register handlers; what no
variant handles reaches the map beneath the view. -/
def gc_map_r (B : svga_device β) (s : pvga1a_vga_device β) (addr : Nat) :
    Nat × pvga1a_vga_device β :=
  if addr = 0x0f then (ext_gc_status_r s, s)
  else if 0x09 ≤ addr ∧ addr ≤ 0x0e then
    match s.m_ext_gc_view with
    | 0 => (0xff, s)
    | 1 => (ext_gc_view1_r s addr, s)
    | _ => (unmap_value, s)
  else
    let r := B.gc_r s.vga addr
    (r.1, { s with vga := r.2 })

/-- Write access to the graphics-controller register space built by
`pvga1a_vga_device::gc_map`.  Variant 0 of the view installs no write handler,
so a write in `0x09..0x0e` reaches the map beneath the view, where it is
dropped. -/
def gc_map_w (B : svga_device β) (s : pvga1a_vga_device β) (addr data : Nat) :
    pvga1a_vga_device β :=
  if addr = 0x0f then ext_gc_unlock_w s data
  else if 0x09 ≤ addr ∧ addr ≤ 0x0e then
    match s.m_ext_gc_view with
    | 1 => ext_gc_view1_w s addr data
    | _ => s
  else
    { s with vga := B.gc_w s.vga addr data }

end pvga1a_vga_device

namespace wd90c00_vga_device

variable {β : Type}

/-- `wd90c00_vga_device::device_reset` -/
def device_reset (B : svga_device β) (s : wd90c00_vga_device β) : wd90c00_vga_device β :=
  { s with
    topvga1a_vga_device := pvga1a_vga_device.device_reset B s.topvga1a_vga_device
    m_pr10_scratch := 0
    m_ext_crtc_write_unlock := false
    m_ext_crtc_view := 0 }

/-- `wd90c00_vga_device::ext_crtc_status_r` -/
def ext_crtc_status_r (s : wd90c00_vga_device β) : Nat :=
  s.m_pr10_scratch ||| (if s.m_ext_crtc_write_unlock then 0x05 else 0x00)

/-- `wd90c00_vga_device::ext_crtc_unlock_w` -/
def ext_crtc_unlock_w (s : wd90c00_vga_device β) (data : Nat) : wd90c00_vga_device β :=
  let unlock : Bool := data &&& 0x7 == 5
  { s with
    m_ext_crtc_write_unlock := unlock
    m_ext_crtc_view := bool_to_int unlock
    m_pr10_scratch := data &&& 0x70 }

/-- Read access to the CRT-controller register space built by
`wd90c00_vga_device::crtc_map`.  Variant 0 of the view answers every read in
`0x2a..0x3f` with `0xff`; variant 1 holds one byte of RAM at `0x2b` and nothing
else; what no variant handles reaches the map beneath the view. -/
def crtc_map_r (B : svga_device β) (s : wd90c00_vga_device β) (addr : Nat) :
    Nat × wd90c00_vga_device β :=
  if addr = 0x29 then (ext_crtc_status_r s, s)
  else if 0x2a ≤ addr ∧ addr ≤ 0x3f then
    match s.m_ext_crtc_view with
    | 0 => (0xff, s)
    | 1 => if addr = 0x2b then (s.pr12_scratch, s) else (unmap_value, s)
    | _ => (unmap_value, s)
  else
    let r := B.crtc_r s.vga addr
    (r.1, { s with vga := r.2 })

/-- Write access to the CRT-controller register space built by
`wd90c00_vga_device::crtc_map`.  Variant 0 installs no write handler and
variant 1 only the RAM byte at `0x2b`; any other write in `0x2a..0x3f` reaches
the map beneath the view, where it is dropped. -/
def crtc_map_w (B : svga_device β) (s : wd90c00_vga_device β) (addr data : Nat) :
    wd90c00_vga_device β :=
  if addr = 0x29 then ext_crtc_unlock_w s data
  else if 0x2a ≤ addr ∧ addr ≤ 0x3f then
    match s.m_ext_crtc_view with
    | 1 => if addr = 0x2b then { s with pr12_scratch := data } else s
    | _ => s
  else
    { s with vga := B.crtc_w s.vga addr data }

/-- Read access to the graphics-controller register space: the WD90C00 uses
the map built by `pvga1a_vga_device::gc_map`. -/
def gc_map_r (B : svga_device β) (s : wd90c00_vga_device β) (addr : Nat) :
    Nat × wd90c00_vga_device β :=
  let r := pvga1a_vga_device.gc_map_r B s.topvga1a_vga_device addr
  (r.1, { s with topvga1a_vga_device := r.2 })

/-- Write access to the graphics-controller register space (inherited map). -/
def gc_map_w (B : svga_device β) (s : wd90c00_vga_device β) (addr data : Nat) :
    wd90c00_vga_device β :=
  { s with topvga1a_vga_device := pvga1a_vga_device.gc_map_w B s.topvga1a_vga_device addr data }

/-- Memory read (inherited `pvga1a_vga_device::mem_r`). -/
def mem_r (B : svga_device β) (s : wd90c00_vga_device β) (offset : Nat) :
    Nat × wd90c00_vga_device β :=
  let r := pvga1a_vga_device.mem_r B s.topvga1a_vga_device offset
  (r.1, { s with topvga1a_vga_device := r.2 })

/-- Memory write (inherited `pvga1a_vga_device::mem_w`). -/
def mem_w (B : svga_device β) (s : wd90c00_vga_device β) (offset data : Nat) :
    wd90c00_vga_device β :=
  { s with topvga1a_vga_device := pvga1a_vga_device.mem_w B s.topvga1a_vga_device offset data }

end wd90c00_vga_device

/-! ## Concrete instances -/

/-- A concrete baseline used to instantiate statements: video memory is a
function from addresses to bytes, both memory primitives address it directly,
and the baseline register maps hold no register. -/
def flat_svga : svga_device (Nat → Nat) where
  mem_linear_r m a := (m a, m)
  mem_linear_w m a d := Function.update m a d
  mem_r m a := (m a, m)
  mem_w m a d := Function.update m a d
  gc_r m _ := (unmap_value, m)
  gc_w m _ _ := m
  crtc_r m _ := (unmap_value, m)
  crtc_w m _ _ := m
  device_reset m := m

/-- A PVGA1A state over `flat_svga` with the tier-1 gate locked and every
register holding a distinctive value; every byte of video memory holds the
number of its 4 KiB bank. -/
def locked_pvga1a : pvga1a_vga_device (Nat → Nat) where
  vga := fun a => a / 4096 % 256
  svga := { rgb8_en := true, bank_w := 0x2a }
  m_memory_size := 0x5a
  m_video_control := 0x01
  m_video_select := 0x33
  m_crtc_lock := 0x44
  m_ext_gc_unlock := false
  m_ext_gc_view := 0

/-- The state `locked_pvga1a` with the tier-1 gate open. -/
def unlocked_pvga1a : pvga1a_vga_device (Nat → Nat) :=
  { locked_pvga1a with m_ext_gc_unlock := true, m_ext_gc_view := 1 }

/-- A WD90C00 state over `flat_svga` with both gates locked. -/
def locked_wd90c00 : wd90c00_vga_device (Nat → Nat) where
  topvga1a_vga_device := locked_pvga1a
  m_pr10_scratch := 0x30
  m_ext_crtc_write_unlock := false
  m_ext_crtc_view := 0
  pr12_scratch := 0x77


/-! ## Predicates and access sequences -/

/-- The tier-1 view shows the variant selected with the tier-1 gate flag, as
after every `device_reset` and every `ext_gc_unlock_w`. -/
def pvga1a_vga_device.view_follows_gate {β : Type} (s : pvga1a_vga_device β) : Prop :=
  s.m_ext_gc_view = bool_to_int s.m_ext_gc_unlock

/-- The tier-2 view shows the variant selected with the tier-2 gate flag, as
after every `device_reset` and every `ext_crtc_unlock_w`. -/
def wd90c00_vga_device.crtc_view_follows_gate {β : Type} (s : wd90c00_vga_device β) : Prop :=
  s.m_ext_crtc_view = bool_to_int s.m_ext_crtc_write_unlock

/-- One access to the graphics-controller register space. -/
inductive gc_access where
  | read (addr : Nat)
  | write (addr data : Nat)
  deriving DecidableEq, Repr

/-- The register offset an access is addressed to. -/
def gc_access.addr : gc_access → Nat
  | .read a => a
  | .write a _ => a

/-- State of the device after one access to the graphics-controller register
space. -/
def pvga1a_vga_device.gc_access_run {β : Type} (B : svga_device β)
    (s : pvga1a_vga_device β) : gc_access → pvga1a_vga_device β
  | .read a => (s.gc_map_r B a).2
  | .write a d => s.gc_map_w B a d

/-- State of the device after a sequence of accesses to the
graphics-controller register space, first access first. -/
def pvga1a_vga_device.gc_accesses_run {β : Type} (B : svga_device β)
    (s : pvga1a_vga_device β) (l : List gc_access) : pvga1a_vga_device β :=
  l.foldl (fun st a => st.gc_access_run B a) s

/-- The value `pvga1a_vga_device::device_start` assigns to
`vga.svga_intf.vram_size`. -/
def pvga1a_vga_device.vram_size : Nat := 1 * 1024 * 1024

/-- One operation on the device as seen from the bus: an access to the
graphics-controller or CRT-controller register space, an access to video
memory, or a device reset. -/
inductive bus_op where
  | gc_read (addr : Nat)
  | gc_write (addr data : Nat)
  | crtc_read (addr : Nat)
  | crtc_write (addr data : Nat)
  | mem_read (offset : Nat)
  | mem_write (offset data : Nat)
  | reset
  deriving DecidableEq, Repr

/-- State of a PVGA1A after one bus operation.  The PVGA1A adds nothing to the
CRT-controller map, so those accesses go to the baseline handlers. -/
def pvga1a_vga_device.step {β : Type} (B : svga_device β)
    (s : pvga1a_vga_device β) : bus_op → pvga1a_vga_device β
  | .gc_read a => (s.gc_map_r B a).2
  | .gc_write a d => s.gc_map_w B a d
  | .crtc_read a => { s with vga := (B.crtc_r s.vga a).2 }
  | .crtc_write a d => { s with vga := B.crtc_w s.vga a d }
  | .mem_read o => (s.mem_r B o).2
  | .mem_write o d => s.mem_w B o d
  | .reset => s.device_reset B

/-- State of a PVGA1A after a sequence of bus operations, first operation
first. -/
def pvga1a_vga_device.run {β : Type} (B : svga_device β)
    (s : pvga1a_vga_device β) (l : List bus_op) : pvga1a_vga_device β :=
  l.foldl (fun st op => st.step B op) s

/-- State of a WD90C00 after one bus operation. -/
def wd90c00_vga_device.step {β : Type} (B : svga_device β)
    (t : wd90c00_vga_device β) : bus_op → wd90c00_vga_device β
  | .gc_read a => (t.gc_map_r B a).2
  | .gc_write a d => t.gc_map_w B a d
  | .crtc_read a => (t.crtc_map_r B a).2
  | .crtc_write a d => t.crtc_map_w B a d
  | .mem_read o => (t.mem_r B o).2
  | .mem_write o d => t.mem_w B o d
  | .reset => t.device_reset B

/-- State of a WD90C00 after a sequence of bus operations, first operation
first. -/
def wd90c00_vga_device.run {β : Type} (B : svga_device β)
    (t : wd90c00_vga_device β) (l : List bus_op) : wd90c00_vga_device β :=
  l.foldl (fun st op => st.step B op) t

/-- The state `locked_wd90c00` with both gates open. -/
def unlocked_wd90c00 : wd90c00_vga_device (Nat → Nat) :=
  { locked_wd90c00 with
    topvga1a_vga_device := unlocked_pvga1a
    m_ext_crtc_write_unlock := true
    m_ext_crtc_view := 1 }

/-! ## Shared lemmas -/

open pvga1a_vga_device

section lemmas

theorem bool_to_int_false : bool_to_int false = 0 := rfl

theorem bool_to_int_true : bool_to_int true = 1 := rfl

theorem lor_five_ne_self_of_land (code : Nat) :
    (code &&& 0x70) ||| 0x05 ≠ code &&& 0x70 := by
  intro h
  have h0 := congrArg (fun n => Nat.testBit n 0) h
  simp [Nat.testBit_lor, Nat.testBit_land] at h0

theorem land_7f_idem (v : Nat) : (v &&& 0x7f) &&& 0x7f = v &&& 0x7f := by
  rw [Nat.land_assoc]
  rfl

end lemmas

/-! ## The lock gates -/

section gates

variable {β : Type}

/-- C1. Tier-1 lock gate: for every prior state `s` and every written value
`code`, after `ext_gc_unlock_w` the gate flag is set exactly when
`(code & 0x07) == 0x05`, whatever the prior gate state was, and
`ext_gc_status_r` then returns `0x05` when unlocked and `0x00` otherwise.  The
view selection follows the flag, and the same holds through the register map
at offset `0x0f`. -/
theorem tier1_gate_write_then_status (B : svga_device β) (s : pvga1a_vga_device β)
    (code : Nat) :
    ((s.ext_gc_unlock_w code).m_ext_gc_unlock = true ↔ code &&& 0x07 = 0x05) ∧
    (s.ext_gc_unlock_w code).ext_gc_status_r
      = (if code &&& 0x07 = 0x05 then 0x05 else 0x00) ∧
    ((s.ext_gc_unlock_w code).ext_gc_status_r
      = if (s.ext_gc_unlock_w code).m_ext_gc_unlock then 0x05 else 0x00) ∧
    ext_gc_unlock_w { s with m_ext_gc_unlock := !s.m_ext_gc_unlock } code
      = s.ext_gc_unlock_w code ∧
    (s.ext_gc_unlock_w code).view_follows_gate ∧
    s.gc_map_w B 0x0f code = s.ext_gc_unlock_w code ∧
    (s.gc_map_w B 0x0f code).gc_map_r B 0x0f
      = ((if code &&& 0x07 = 0x05 then 0x05 else 0x00), s.gc_map_w B 0x0f code) := by
  have hst : (s.ext_gc_unlock_w code).ext_gc_status_r
      = (if code &&& 0x07 = 0x05 then 0x05 else 0x00) := by
    by_cases h : code &&& 0x07 = 0x05 <;> simp [ext_gc_status_r, ext_gc_unlock_w, h]
  refine ⟨?_, hst, rfl, rfl, rfl, ?_, ?_⟩
  · simp [ext_gc_unlock_w]
  · simp [gc_map_w]
  · simp only [gc_map_r, gc_map_w, if_true]
    rw [hst]

/-- C2. Tier-2 lock gate status: for every prior state `s` and every written
value `code`, `ext_crtc_unlock_w` followed by `ext_crtc_status_r` yields
`0x05 | scratch_bits` if and only if `(code & 0x07) == 0x05`, and
`0x00 | scratch_bits` otherwise, where `scratch_bits = code & 0x70` is stored
whether or not the write unlocks. -/
theorem tier2_gate_write_then_status (B : svga_device β) (s : wd90c00_vga_device β)
    (code : Nat) :
    (s.ext_crtc_unlock_w code).m_pr10_scratch = code &&& 0x70 ∧
    ((s.ext_crtc_unlock_w code).m_ext_crtc_write_unlock = true ↔ code &&& 0x07 = 0x05) ∧
    ((s.ext_crtc_unlock_w code).ext_crtc_status_r = 0x05 ||| (code &&& 0x70)
      ↔ code &&& 0x07 = 0x05) ∧
    (s.ext_crtc_unlock_w code).ext_crtc_status_r
      = (if code &&& 0x07 = 0x05 then 0x05 ||| (code &&& 0x70) else 0x00 ||| (code &&& 0x70)) ∧
    ((s.crtc_map_w B 0x29 code).crtc_map_r B 0x29).1
      = (if code &&& 0x07 = 0x05 then 0x05 ||| (code &&& 0x70) else 0x00 ||| (code &&& 0x70)) := by
  have hst : (s.ext_crtc_unlock_w code).ext_crtc_status_r
      = (if code &&& 0x07 = 0x05 then 0x05 ||| (code &&& 0x70)
          else 0x00 ||| (code &&& 0x70)) := by
    by_cases h : code &&& 0x07 = 0x05 <;>
      simp [wd90c00_vga_device.ext_crtc_status_r, wd90c00_vga_device.ext_crtc_unlock_w, h,
        Nat.lor_comm]
  refine ⟨rfl, ?_, ⟨?_, ?_⟩, hst, ?_⟩
  · simp [wd90c00_vga_device.ext_crtc_unlock_w]
  · intro h
    by_contra hc
    rw [hst, if_neg hc] at h
    have h2 : (code &&& 0x70) ||| 0x05 = code &&& 0x70 := by
      rw [Nat.lor_comm]
      simpa using h.symm
    exact lor_five_ne_self_of_land code h2
  · intro h
    rw [hst, if_pos h]
  · simp only [wd90c00_vga_device.crtc_map_r, wd90c00_vga_device.crtc_map_w, if_true]
    exact hst

end gates

/-! ## Locked views -/

section locked

variable {β : Type}

theorem gc_map_r_locked (B : svga_device β) (s : pvga1a_vga_device β) (a : Nat)
    (hl : s.m_ext_gc_unlock = false) (hv : s.view_follows_gate)
    (h1 : 0x09 ≤ a) (h2 : a ≤ 0x0e) : s.gc_map_r B a = (0xff, s) := by
  have hview : s.m_ext_gc_view = 0 := by
    rw [hv, hl]
    rfl
  have hne : a ≠ 0x0f := by omega
  simp [gc_map_r, hne, h1, h2, hview]

theorem gc_map_w_locked (B : svga_device β) (s : pvga1a_vga_device β) (a v : Nat)
    (hl : s.m_ext_gc_unlock = false) (hv : s.view_follows_gate)
    (h1 : 0x09 ≤ a) (h2 : a ≤ 0x0e) : s.gc_map_w B a v = s := by
  have hview : s.m_ext_gc_view = 0 := by
    rw [hv, hl]
    rfl
  have hne : a ≠ 0x0f := by omega
  simp [gc_map_w, hne, h1, h2, hview]

/-- C3. Locked reads return the sentinel: in every state whose tier-1 gate is
locked (flag clear, view following the flag) a read of any offset in
`0x09..0x0e` returns `0xFF` and leaves the state as it was, whatever the
registers hold; likewise for the tier-2 gate and every offset in
`0x2a..0x3f`. -/
theorem locked_read_returns_sentinel (B : svga_device β) :
    (∀ (s : pvga1a_vga_device β) (a : Nat),
      s.m_ext_gc_unlock = false → s.view_follows_gate → 0x09 ≤ a → a ≤ 0x0e →
      s.gc_map_r B a = (0xff, s)) ∧
    (∀ (t : wd90c00_vga_device β) (b : Nat),
      t.m_ext_crtc_write_unlock = false → t.crtc_view_follows_gate → 0x2a ≤ b → b ≤ 0x3f →
      t.crtc_map_r B b = (0xff, t)) := by
  refine ⟨fun s a hl hv h1 h2 => gc_map_r_locked B s a hl hv h1 h2, ?_⟩
  intro t b hl hv h1 h2
  have hview : t.m_ext_crtc_view = 0 := by
    rw [hv, hl]
    rfl
  have hne : b ≠ 0x29 := by omega
  simp [wd90c00_vga_device.crtc_map_r, hne, h1, h2, hview]

/-- Witness for C3: the bank-select register of `locked_pvga1a` (which holds
`0x2a`) and the scratch byte of `locked_wd90c00` (which holds `0x77`) both read
`0xff`. -/
theorem locked_read_returns_sentinel_witness :
    locked_pvga1a.gc_map_r flat_svga 0x09 = (0xff, locked_pvga1a) ∧
    locked_wd90c00.crtc_map_r flat_svga 0x2b = (0xff, locked_wd90c00) :=
  ⟨(locked_read_returns_sentinel flat_svga).1 locked_pvga1a 0x09 rfl rfl
      (by decide) (by decide),
   (locked_read_returns_sentinel flat_svga).2 locked_wd90c00 0x2b rfl rfl
      (by decide) (by decide)⟩

theorem ext_gc_view1_r_gate_irrelevant (s : pvga1a_vga_device β) (code a : Nat) :
    (s.ext_gc_unlock_w code).ext_gc_view1_r a = s.ext_gc_view1_r a := rfl

theorem gc_map_r_unlocked (B : svga_device β) (s : pvga1a_vga_device β) (a : Nat)
    (hl : s.m_ext_gc_unlock = true) (hv : s.view_follows_gate)
    (h1 : 0x09 ≤ a) (h2 : a ≤ 0x0e) : s.gc_map_r B a = (s.ext_gc_view1_r a, s) := by
  have hview : s.m_ext_gc_view = 1 := by
    rw [hv, hl]
    rfl
  have hne : a ≠ 0x0f := by omega
  simp [gc_map_r, hne, h1, h2, hview]

theorem gc_map_w_unlocked (B : svga_device β) (s : pvga1a_vga_device β) (a v : Nat)
    (hl : s.m_ext_gc_unlock = true) (hv : s.view_follows_gate)
    (h1 : 0x09 ≤ a) (h2 : a ≤ 0x0e) : s.gc_map_w B a v = s.ext_gc_view1_w a v := by
  have hview : s.m_ext_gc_view = 1 := by
    rw [hv, hl]
    rfl
  have hne : a ≠ 0x0f := by omega
  simp [gc_map_w, hne, h1, h2, hview]

theorem ext_gc_unlock_w_unlocks (s : pvga1a_vga_device β) (code : Nat)
    (hc : code &&& 0x07 = 0x05) :
    (s.ext_gc_unlock_w code).m_ext_gc_unlock = true ∧
    (s.ext_gc_unlock_w code).view_follows_gate := by
  constructor
  · simp [ext_gc_unlock_w, hc]
  · rfl

theorem ext_gc_unlock_w_locks (s : pvga1a_vga_device β) (code : Nat)
    (hc : code &&& 0x07 ≠ 0x05) :
    (s.ext_gc_unlock_w code).m_ext_gc_unlock = false ∧
    (s.ext_gc_unlock_w code).view_follows_gate := by
  constructor
  · simp [ext_gc_unlock_w, hc]
  · rfl

/-- C4. Locked writes are discarded: in every state whose tier-1 gate is locked
(flag clear, view following the flag), a write of any value `v` to any offset
`r` in `0x09..0x0e` leaves the whole device state unchanged, so that unlocking
afterwards and reading `r` returns the value `r` held before the locked
write. -/
theorem locked_write_discarded (B : svga_device β) (s : pvga1a_vga_device β) (r v code : Nat)
    (hl : s.m_ext_gc_unlock = false) (hv : s.view_follows_gate)
    (h1 : 0x09 ≤ r) (h2 : r ≤ 0x0e) (hc : code &&& 0x07 = 0x05) :
    s.gc_map_w B r v = s ∧
    (((s.gc_map_w B r v).gc_map_w B 0x0f code).gc_map_r B r).1 = s.ext_gc_view1_r r ∧
    (((s.gc_map_w B r v).gc_map_w B 0x0f code).gc_map_r B r).1
      = ((s.gc_map_w B 0x0f code).gc_map_r B r).1 := by
  have hw : s.gc_map_w B r v = s := gc_map_w_locked B s r v hl hv h1 h2
  have hu : s.gc_map_w B 0x0f code = s.ext_gc_unlock_w code := by simp [gc_map_w]
  have hr : ((s.gc_map_w B 0x0f code).gc_map_r B r).1 = s.ext_gc_view1_r r := by
    rw [hu, gc_map_r_unlocked B _ r (ext_gc_unlock_w_unlocks s code hc).1
      (ext_gc_unlock_w_unlocks s code hc).2 h1 h2]
    rfl
  refine ⟨hw, ?_, ?_⟩
  · rw [hw]
    exact hr
  · rw [hw]

/-- Witness for C4: a locked write of `0x55` to the bank-select register of
`locked_pvga1a` changes nothing, and after unlocking the register still reads
`0x2a`. -/
theorem locked_write_discarded_witness :
    locked_pvga1a.gc_map_w flat_svga 0x09 0x55 = locked_pvga1a ∧
    (((locked_pvga1a.gc_map_w flat_svga 0x09 0x55).gc_map_w flat_svga 0x0f 0x05).gc_map_r
      flat_svga 0x09).1 = 0x2a :=
  have h := locked_write_discarded flat_svga locked_pvga1a 0x09 0x55 0x05 rfl rfl
    (by decide) (by decide) (by decide)
  ⟨h.1, h.2.1.trans (by decide)⟩

end locked

/-! ## The banked memory window -/

section window

variable {β : Type}

/-- C5. Bank translation: for every offset and every state, when
`svga.rgb8_en` (WindowEnable) is set `mem_r` and `mem_w` both go to the
baseline linear memory at `offset + svga.bank_w * 4096`, the sum being taken in
`offs_t` arithmetic; the address is the plain sum whenever that fits in an
`offs_t`, in particular for all offsets in `[0, 4095]` and all bank values in
`[0, 127]`.  When WindowEnable is clear both pass `offset` unmodified to the
baseline `mem_r` / `mem_w`.  Reads and writes use the same bank. -/
theorem bank_translation (B : svga_device β) (s : pvga1a_vga_device β) (offset data : Nat) :
    (s.svga.rgb8_en = true →
      s.mem_r B offset
        = ((B.mem_linear_r s.vga ((offset + s.svga.bank_w * 4096) % OFFS_T_MOD)).1,
           { s with vga := (B.mem_linear_r s.vga
                ((offset + s.svga.bank_w * 4096) % OFFS_T_MOD)).2 }) ∧
      s.mem_w B offset data
        = { s with vga := (B.mem_linear_w s.vga
              ((offset + s.svga.bank_w * 4096) % OFFS_T_MOD) data) }) ∧
    (s.svga.rgb8_en = true → offset + s.svga.bank_w * 4096 < OFFS_T_MOD →
      s.mem_r B offset
        = ((B.mem_linear_r s.vga (offset + s.svga.bank_w * 4096)).1,
           { s with vga := (B.mem_linear_r s.vga (offset + s.svga.bank_w * 4096)).2 }) ∧
      s.mem_w B offset data
        = { s with vga := B.mem_linear_w s.vga (offset + s.svga.bank_w * 4096) data }) ∧
    (s.svga.rgb8_en = true → offset ≤ 4095 → s.svga.bank_w ≤ 127 →
      (s.mem_r B offset).1 = (B.mem_linear_r s.vga (offset + s.svga.bank_w * 4096)).1 ∧
      (s.mem_w B offset data).vga
        = B.mem_linear_w s.vga (offset + s.svga.bank_w * 4096) data) ∧
    (s.svga.rgb8_en = false →
      s.mem_r B offset = ((B.mem_r s.vga offset).1, { s with vga := (B.mem_r s.vga offset).2 }) ∧
      s.mem_w B offset data = { s with vga := B.mem_w s.vga offset data }) := by
  have hwrap : s.svga.rgb8_en = true →
      s.mem_r B offset
        = ((B.mem_linear_r s.vga ((offset + s.svga.bank_w * 4096) % OFFS_T_MOD)).1,
           { s with vga := (B.mem_linear_r s.vga
                ((offset + s.svga.bank_w * 4096) % OFFS_T_MOD)).2 }) ∧
      s.mem_w B offset data
        = { s with vga := (B.mem_linear_w s.vga
              ((offset + s.svga.bank_w * 4096) % OFFS_T_MOD) data) } := by
    intro h
    simp [mem_r, mem_w, h]
  have hexact : s.svga.rgb8_en = true → offset + s.svga.bank_w * 4096 < OFFS_T_MOD →
      s.mem_r B offset
        = ((B.mem_linear_r s.vga (offset + s.svga.bank_w * 4096)).1,
           { s with vga := (B.mem_linear_r s.vga (offset + s.svga.bank_w * 4096)).2 }) ∧
      s.mem_w B offset data
        = { s with vga := B.mem_linear_w s.vga (offset + s.svga.bank_w * 4096) data } := by
    intro h hlt
    have := hwrap h
    rwa [Nat.mod_eq_of_lt hlt] at this
  refine ⟨hwrap, hexact, ?_, ?_⟩
  · intro h ho hb
    have hlt : offset + s.svga.bank_w * 4096 < OFFS_T_MOD := by
      unfold OFFS_T_MOD
      omega
    obtain ⟨hr, hw⟩ := hexact h hlt
    rw [hr, hw]
    exact ⟨rfl, rfl⟩
  · intro h
    simp [mem_r, mem_w, h]

/-- Witness for C5: in `unlocked_pvga1a` (WindowEnable set, bank `0x2a`) a read
at offset `0x10` goes to linear address `0x2a010`, and a write at the same
offset goes to the same address. -/
theorem bank_translation_witness :
    (unlocked_pvga1a.mem_r flat_svga 0x10).1 = (flat_svga.mem_linear_r unlocked_pvga1a.vga 0x2a010).1 ∧
    (unlocked_pvga1a.mem_w flat_svga 0x10 0x99).vga
      = flat_svga.mem_linear_w unlocked_pvga1a.vga 0x2a010 0x99 :=
  (bank_translation flat_svga unlocked_pvga1a 0x10 0x99).2.2.1 rfl (by decide) (by decide)

/-- C6. Reset scenario: after `device_reset` from any prior state the tier-1
status register reads `0x00` (gate locked), the memory-size register reads
`0xC0`, `svga.bank_w` (BankSelector) is `0` and `svga.rgb8_en` (WindowEnable)
is false; the same holds after `wd90c00_vga_device::device_reset`, whose
tier-2 status register then reads `0x00` as well. -/
theorem reset_scenario (B : svga_device β) (s : pvga1a_vga_device β)
    (t : wd90c00_vga_device β) :
    ((s.device_reset B).ext_gc_status_r = 0x00 ∧
      (s.device_reset B).m_ext_gc_unlock = false ∧
      ((s.device_reset B).gc_map_r B 0x0f).1 = 0x00 ∧
      (s.device_reset B).memory_size_r = 0xC0 ∧
      (s.device_reset B).svga.bank_w = 0 ∧
      (s.device_reset B).svga.rgb8_en = false) ∧
    ((t.device_reset B).ext_gc_status_r = 0x00 ∧
      (t.device_reset B).m_ext_gc_unlock = false ∧
      ((t.device_reset B).gc_map_r B 0x0f).1 = 0x00 ∧
      (t.device_reset B).memory_size_r = 0xC0 ∧
      (t.device_reset B).svga.bank_w = 0 ∧
      (t.device_reset B).svga.rgb8_en = false ∧
      (t.device_reset B).ext_crtc_status_r = 0x00 ∧
      (t.device_reset B).m_ext_crtc_write_unlock = false) := by
  refine ⟨⟨rfl, rfl, ?_, ?_, rfl, rfl⟩, ⟨rfl, rfl, ?_, ?_, rfl, rfl, ?_, rfl⟩⟩
  · simp [gc_map_r, ext_gc_status_r, device_reset]
  · simp [memory_size_r, device_reset]
  · simp [wd90c00_vga_device.gc_map_r, gc_map_r, ext_gc_status_r,
      wd90c00_vga_device.device_reset, device_reset]
  · simp [memory_size_r, wd90c00_vga_device.device_reset, device_reset]
  · simp [wd90c00_vga_device.ext_crtc_status_r, wd90c00_vga_device.device_reset]

/-- C7 (as amended). End-to-end scenario: starting from the reset state,
writing `0x05` to register `0x0f` unlocks the tier-1 gate, writing `0x2A` to
register `0x09` makes `svga.bank_w == 0x2A`, writing `0x01` to register `0x0e`
sets `svga.rgb8_en`, and `mem_r(0x10)` then returns what the baseline linear
memory holds at `0x10 + 0x2A * 4096 = 0x2A010`. -/
theorem end_to_end_scenario (B : svga_device β) (s : pvga1a_vga_device β) :
    ((s.device_reset B).gc_map_w B 0x0f 0x05).m_ext_gc_unlock = true ∧
    (((s.device_reset B).gc_map_w B 0x0f 0x05).gc_map_w B 0x09 0x2A).svga.bank_w = 0x2A ∧
    ((((s.device_reset B).gc_map_w B 0x0f 0x05).gc_map_w B 0x09 0x2A).gc_map_w B
        0x0e 0x01).svga.rgb8_en = true ∧
    ((((s.device_reset B).gc_map_w B 0x0f 0x05).gc_map_w B 0x09 0x2A).gc_map_w B
        0x0e 0x01).svga.bank_w = 0x2A ∧
    (((((s.device_reset B).gc_map_w B 0x0f 0x05).gc_map_w B 0x09 0x2A).gc_map_w B
        0x0e 0x01).mem_r B 0x10).1
      = (B.mem_linear_r (B.device_reset s.vga) 0x2A010).1 ∧
    0x10 + 0x2A * 4096 = 0x2A010 := by
  have h3 : (((s.device_reset B).gc_map_w B 0x0f 0x05).gc_map_w B 0x09 0x2A).gc_map_w B
      0x0e 0x01
      = { vga := B.device_reset s.vga, svga := { rgb8_en := true, bank_w := 0x2A },
          m_memory_size := 0, m_video_control := 0x01, m_video_select := 0, m_crtc_lock := 0,
          m_ext_gc_unlock := true, m_ext_gc_view := 1 } := rfl
  have haddr : (0x10 + 0x2A * 0x1000) % OFFS_T_MOD = 0x2A010 := by decide
  refine ⟨rfl, rfl, rfl, rfl, ?_, rfl⟩
  rw [h3]
  simp only [mem_r, if_true]
  rw [haddr]

/-- Counterexample to C7 as stated: over `flat_svga`, with every byte of video
memory holding its bank number, the scenario's `mem_r(0x10)` returns `0x2a`
(the byte at `0x2A010`), not the byte at `0xAA10` (which is `0x0a`); and
`0x10 + 0x2A * 4096` is not `0xAA10`. -/
theorem end_to_end_scenario_counterexample :
    ((((((locked_pvga1a.device_reset flat_svga).gc_map_w flat_svga 0x0f 0x05).gc_map_w
        flat_svga 0x09 0x2A).gc_map_w flat_svga 0x0e 0x01).mem_r flat_svga 0x10).1 = 0x2a ∧
      (flat_svga.mem_linear_r (flat_svga.device_reset locked_pvga1a.vga) 0xAA10).1 = 0x0a) ∧
    ¬ (((((locked_pvga1a.device_reset flat_svga).gc_map_w flat_svga 0x0f 0x05).gc_map_w
        flat_svga 0x09 0x2A).gc_map_w flat_svga 0x0e 0x01).mem_r flat_svga 0x10).1
      = (flat_svga.mem_linear_r (flat_svga.device_reset locked_pvga1a.vga) 0xAA10).1 ∧
    ¬ (0x10 + 0x2A * 4096 = 0xAA10) := by
  refine ⟨⟨by decide, by decide⟩, by decide, by decide⟩

end window

/-! ## Stored values and the gate -/

section stored

variable {β : Type}

theorem gc_accesses_run_locked (B : svga_device β) (s : pvga1a_vga_device β)
    (hl : s.m_ext_gc_unlock = false) (hv : s.view_follows_gate) (l : List gc_access)
    (hr : ∀ a ∈ l, 0x09 ≤ a.addr ∧ a.addr ≤ 0x0e) : s.gc_accesses_run B l = s := by
  induction l with
  | nil => rfl
  | cons a l ih =>
    have ha := hr a (List.mem_cons_self a l)
    have hstep : s.gc_access_run B a = s := by
      cases a with
      | read r =>
        show (s.gc_map_r B r).2 = s
        rw [gc_map_r_locked B s r hl hv ha.1 ha.2]
      | write r d => exact gc_map_w_locked B s r d hl hv ha.1 ha.2
    show (s.gc_access_run B a).gc_accesses_run B l = s
    rw [hstep]
    exact ih (fun b hb => hr b (List.mem_cons_of_mem a hb))

theorem gc_map_w_0f (B : svga_device β) (s : pvga1a_vga_device β) (code : Nat) :
    s.gc_map_w B 0x0f code = s.ext_gc_unlock_w code := by
  simp [gc_map_w]

theorem ext_gc_unlock_w_twice (s : pvga1a_vga_device β) (c1 c2 : Nat) :
    (s.ext_gc_unlock_w c1).ext_gc_unlock_w c2 = s.ext_gc_unlock_w c2 := rfl

theorem ext_gc_unlock_w_of_unlocked (s : pvga1a_vga_device β) (code : Nat)
    (hl : s.m_ext_gc_unlock = true) (hv : s.view_follows_gate) (hc : code &&& 0x07 = 0x05) :
    s.ext_gc_unlock_w code = s := by
  have hview : s.m_ext_gc_view = 1 := by
    rw [hv, hl]
    rfl
  cases s
  simp_all [ext_gc_unlock_w, bool_to_int]

/-- C8. Stored values survive lock transitions.  (1) For every state and every
written value, `ext_gc_unlock_w` changes only the tier-1 gate flag and view
selection: `svga.bank_w`, `svga.rgb8_en`, memory-size, video-select, CRTC-lock,
video-control and the baseline state are unchanged.  (2) For every sequence
lock -> accesses to `0x09..0x0e` -> unlock, each register in `0x09..0x0e` then
reads the value it held before the lock, and if the gate was open before the
lock the device is back in its state before the lock.  (3) With
`svga.bank_w == 0x2A`: write `0x00` to `0x0f`, read `0x09` gives `0xFF`, a write
to `0x09` is a no-op, write `0x05` to `0x0f`, read `0x09` gives `0x2A`. -/
theorem stored_values_survive_lock (B : svga_device β) (s : pvga1a_vga_device β) (code : Nat) :
    ((s.ext_gc_unlock_w code).svga.bank_w = s.svga.bank_w ∧
      (s.ext_gc_unlock_w code).svga.rgb8_en = s.svga.rgb8_en ∧
      (s.ext_gc_unlock_w code).m_memory_size = s.m_memory_size ∧
      (s.ext_gc_unlock_w code).m_video_select = s.m_video_select ∧
      (s.ext_gc_unlock_w code).m_crtc_lock = s.m_crtc_lock ∧
      (s.ext_gc_unlock_w code).m_video_control = s.m_video_control ∧
      (s.ext_gc_unlock_w code).vga = s.vga ∧
      s.ext_gc_unlock_w code
        = { s with m_ext_gc_unlock := (s.ext_gc_unlock_w code).m_ext_gc_unlock,
                   m_ext_gc_view := (s.ext_gc_unlock_w code).m_ext_gc_view }) ∧
    (∀ (lock unlock : Nat) (l : List gc_access) (r : Nat),
      lock &&& 0x07 ≠ 0x05 → unlock &&& 0x07 = 0x05 →
      (∀ a ∈ l, 0x09 ≤ a.addr ∧ a.addr ≤ 0x0e) → 0x09 ≤ r → r ≤ 0x0e →
      ((((s.gc_map_w B 0x0f lock).gc_accesses_run B l).gc_map_w B 0x0f unlock).gc_map_r B r).1
          = s.ext_gc_view1_r r ∧
        (s.m_ext_gc_unlock = true → s.view_follows_gate →
          ((s.gc_map_w B 0x0f lock).gc_accesses_run B l).gc_map_w B 0x0f unlock = s ∧
          ((((s.gc_map_w B 0x0f lock).gc_accesses_run B l).gc_map_w B 0x0f unlock).gc_map_r
              B r).1 = (s.gc_map_r B r).1)) ∧
    (s.svga.bank_w = 0x2A → ∀ v : Nat,
      (s.gc_map_w B 0x0f 0x00).gc_map_r B 0x09 = (0xFF, s.gc_map_w B 0x0f 0x00) ∧
      (s.gc_map_w B 0x0f 0x00).gc_map_w B 0x09 v = s.gc_map_w B 0x0f 0x00 ∧
      ((((s.gc_map_w B 0x0f 0x00).gc_map_w B 0x09 v).gc_map_w B 0x0f 0x05).gc_map_r
          B 0x09).1 = 0x2A) := by
  have hseq : ∀ (lock unlock : Nat) (l : List gc_access),
      lock &&& 0x07 ≠ 0x05 → (∀ a ∈ l, 0x09 ≤ a.addr ∧ a.addr ≤ 0x0e) →
      ((s.gc_map_w B 0x0f lock).gc_accesses_run B l).gc_map_w B 0x0f unlock
        = s.ext_gc_unlock_w unlock := by
    intro lock unlock l hlock hl
    rw [gc_map_w_0f B s lock,
      gc_accesses_run_locked B _ (ext_gc_unlock_w_locks s lock hlock).1
        (ext_gc_unlock_w_locks s lock hlock).2 l hl,
      gc_map_w_0f, ext_gc_unlock_w_twice]
  have hread : ∀ (unlock r : Nat), unlock &&& 0x07 = 0x05 → 0x09 ≤ r → r ≤ 0x0e →
      ((s.ext_gc_unlock_w unlock).gc_map_r B r).1 = s.ext_gc_view1_r r := by
    intro unlock r hu h1 h2
    rw [gc_map_r_unlocked B _ r (ext_gc_unlock_w_unlocks s unlock hu).1
      (ext_gc_unlock_w_unlocks s unlock hu).2 h1 h2]
    rfl
  refine ⟨⟨rfl, rfl, rfl, rfl, rfl, rfl, rfl, rfl⟩, ?_, ?_⟩
  · intro lock unlock l r hlock hunlock hl h1 h2
    rw [hseq lock unlock l hlock hl]
    refine ⟨hread unlock r hunlock h1 h2, ?_⟩
    intro hs hv
    rw [ext_gc_unlock_w_of_unlocked s unlock hs hv hunlock]
    exact ⟨rfl, rfl⟩
  · intro hb v
    have hlock : (0x00 : Nat) &&& 0x07 ≠ 0x05 := by decide
    have hunlock : (0x05 : Nat) &&& 0x07 = 0x05 := by decide
    have hL := ext_gc_unlock_w_locks s 0x00 hlock
    rw [gc_map_w_0f B s 0x00]
    have hw : (s.ext_gc_unlock_w 0x00).gc_map_w B 0x09 v = s.ext_gc_unlock_w 0x00 :=
      gc_map_w_locked B _ 0x09 v hL.1 hL.2 (by decide) (by decide)
    refine ⟨gc_map_r_locked B _ 0x09 hL.1 hL.2 (by decide) (by decide), hw, ?_⟩
    rw [hw, gc_map_w_0f, ext_gc_unlock_w_twice, hread 0x05 0x09 hunlock (by decide) (by decide)]
    have h7f : (0x2A : Nat) &&& 0x7f = 0x2A := by decide
    simp [ext_gc_view1_r, address_offset_r, hb, h7f]

/-- Witness for C8 on `unlocked_pvga1a` (bank `0x2a`): lock with `0x00`, read
and write every kind of guarded register, unlock with `0x05`; the device is
back in its former state and register `0x09` reads `0x2a`. -/
theorem stored_values_survive_lock_witness :
    (((unlocked_pvga1a.gc_map_w flat_svga 0x0f 0x00).gc_accesses_run flat_svga
        [.read 0x09, .write 0x09 0x11, .write 0x0b 0x22, .write 0x0e 0x00,
          .read 0x0e]).gc_map_w flat_svga 0x0f 0x05 = unlocked_pvga1a) ∧
    ((((unlocked_pvga1a.gc_map_w flat_svga 0x0f 0x00).gc_map_w flat_svga 0x09 0x11).gc_map_w
        flat_svga 0x0f 0x05).gc_map_r flat_svga 0x09).1 = 0x2A :=
  ⟨(((stored_values_survive_lock flat_svga unlocked_pvga1a 0).2.1 0x00 0x05
      [.read 0x09, .write 0x09 0x11, .write 0x0b 0x22, .write 0x0e 0x00, .read 0x0e] 0x09
      (by decide) (by decide) (by decide) (by decide) (by decide)).2 rfl rfl).1,
   ((stored_values_survive_lock flat_svga unlocked_pvga1a 0).2.2 rfl 0x11).2.2⟩

end stored

/-! ## Extended registers -/

section registers

variable {β : Type}

theorem lor_c0_land_c0 (x : Nat) : (0xC0 ||| (x &&& 0x3F)) &&& 0xC0 = 0xC0 := by
  apply Nat.eq_of_testBit_eq
  intro i
  simp only [Nat.testBit_land, Nat.testBit_lor]
  cases h : Nat.testBit 0xC0 i <;> simp

theorem lor_c0_land_3f (x : Nat) : (0xC0 ||| (x &&& 0x3F)) &&& 0x3F = x &&& 0x3F := by
  have h0 : (0xC0 : Nat) &&& 0x3F = 0 := by decide
  apply Nat.eq_of_testBit_eq
  intro i
  have hi := congrArg (fun n => Nat.testBit n i) h0
  simp only [Nat.testBit_land, Nat.zero_testBit] at hi
  simp only [Nat.testBit_land, Nat.testBit_lor]
  cases h1 : Nat.testBit 0xC0 i <;> cases h2 : Nat.testBit 0x3F i <;> simp_all

/-- C9. Bank-select register: in every state with the tier-1 gate unlocked
(flag set, view following the flag), a write of any value `v` to register
`0x09` sets `svga.bank_w` to `v & 0x7F`, changes neither `svga.rgb8_en` nor any
other field, and a following read of `0x09` returns `v & 0x7F`. -/
theorem bank_select_register (B : svga_device β) (s : pvga1a_vga_device β) (v : Nat)
    (hl : s.m_ext_gc_unlock = true) (hv : s.view_follows_gate) :
    (s.gc_map_w B 0x09 v).svga.bank_w = v &&& 0x7F ∧
    (s.gc_map_w B 0x09 v).svga.rgb8_en = s.svga.rgb8_en ∧
    s.gc_map_w B 0x09 v = { s with svga := { s.svga with bank_w := v &&& 0x7F } } ∧
    (s.gc_map_w B 0x09 v).gc_map_r B 0x09 = (v &&& 0x7F, s.gc_map_w B 0x09 v) := by
  have hw : s.gc_map_w B 0x09 v = { s with svga := { s.svga with bank_w := v &&& 0x7F } } := by
    rw [gc_map_w_unlocked B s 0x09 v hl hv (by decide) (by decide)]
    rfl
  have hl2 : (s.gc_map_w B 0x09 v).m_ext_gc_unlock = true := by rw [hw]; exact hl
  have hv2 : (s.gc_map_w B 0x09 v).view_follows_gate := by rw [hw]; exact hv
  refine ⟨by rw [hw], by rw [hw], hw, ?_⟩
  rw [gc_map_r_unlocked B _ 0x09 hl2 hv2 (by decide) (by decide), hw]
  simp only [ext_gc_view1_r, address_offset_r]
  simp [land_7f_idem]

/-- Witness for C9: writing `0xAB` to register `0x09` of `unlocked_pvga1a` leaves
bank `0x2B`, which is what the register then reads. -/
theorem bank_select_register_witness :
    ((unlocked_pvga1a.gc_map_w flat_svga 0x09 0xAB).gc_map_r flat_svga 0x09).1 = 0x2B :=
  (congrArg Prod.fst
    (bank_select_register flat_svga unlocked_pvga1a 0xAB rfl rfl).2.2.2).trans (by decide)

/-- C10. Memory-size readback: for every value `v`, `memory_size_w` stores `v`
verbatim and `memory_size_r` then returns `0xC0 | (v & 0x3F)`; hence in every
state the value read has its top two bits set, `memory_size_r & 0xC0 == 0xC0`,
and the low six bits read back are the low six bits written. -/
theorem memory_size_readback (s : pvga1a_vga_device β) (v : Nat) :
    (s.memory_size_w v).m_memory_size = v ∧
    (s.memory_size_w v).memory_size_r = 0xC0 ||| (v &&& 0x3F) ∧
    s.memory_size_r &&& 0xC0 = 0xC0 ∧
    (s.memory_size_w v).memory_size_r &&& 0x3F = v &&& 0x3F := by
  refine ⟨rfl, rfl, ?_, ?_⟩
  · exact lor_c0_land_c0 s.m_memory_size
  · exact lor_c0_land_3f v

end registers

/-! ## Verbatim stores and gate independence -/

section verbatim

variable {β : Type}

theorem gc_map_w_unlocked_preserves (B : svga_device β) (s : pvga1a_vga_device β) (a v : Nat)
    (hl : s.m_ext_gc_unlock = true) (hv : s.view_follows_gate)
    (h1 : 0x09 ≤ a) (h2 : a ≤ 0x0e) :
    (s.gc_map_w B a v).m_ext_gc_unlock = true ∧ (s.gc_map_w B a v).view_follows_gate := by
  rw [gc_map_w_unlocked B s a v hl hv h1 h2]
  unfold ext_gc_view1_w address_offset_w
  split_ifs <;> exact ⟨hl, hv⟩

theorem mem_r_congr (B : svga_device β) (s t : pvga1a_vga_device β) (o : Nat)
    (hs : s.svga = t.svga) (hm : s.vga = t.vga) :
    (s.mem_r B o).1 = (t.mem_r B o).1 ∧ (s.mem_r B o).2.vga = (t.mem_r B o).2.vga := by
  unfold mem_r
  rw [hs, hm]
  split_ifs <;> exact ⟨rfl, rfl⟩

theorem mem_w_congr (B : svga_device β) (s t : pvga1a_vga_device β) (o d : Nat)
    (hs : s.svga = t.svga) (hm : s.vga = t.vga) :
    (s.mem_w B o d).vga = (t.mem_w B o d).vga := by
  unfold mem_w
  rw [hs, hm]
  split_ifs <;> rfl

/-- C11. Verbatim byte stores: in every state with the tier-1 gate unlocked
(flag set, view following the flag) and for every value `v`, writing `v` to
video-select (`0x0c`), CRTC-lock (`0x0d`) or video-control (`0x0e`) and then
reading the same register returns exactly `v`; each write changes only its own
field (the video-control write also sets `svga.rgb8_en` from bit 0), so
`svga.bank_w` is unchanged, and a video-select, CRTC-lock or memory-size write
leaves `svga.rgb8_en` and the result of every memory read unchanged. -/
theorem verbatim_byte_stores (B : svga_device β) (s : pvga1a_vga_device β) (v : Nat)
    (hl : s.m_ext_gc_unlock = true) (hv : s.view_follows_gate) :
    (s.gc_map_w B 0x0c v = { s with m_video_select := v } ∧
      (s.gc_map_w B 0x0c v).gc_map_r B 0x0c = (v, s.gc_map_w B 0x0c v)) ∧
    (s.gc_map_w B 0x0d v = { s with m_crtc_lock := v } ∧
      (s.gc_map_w B 0x0d v).gc_map_r B 0x0d = (v, s.gc_map_w B 0x0d v)) ∧
    (s.gc_map_w B 0x0e v
        = { s with m_video_control := v, svga := { s.svga with rgb8_en := BIT v 0 } } ∧
      (s.gc_map_w B 0x0e v).gc_map_r B 0x0e = (v, s.gc_map_w B 0x0e v) ∧
      (s.gc_map_w B 0x0e v).svga.bank_w = s.svga.bank_w) ∧
    (s.gc_map_w B 0x0b v = { s with m_memory_size := v }) ∧
    (∀ a, a = 0x0b ∨ a = 0x0c ∨ a = 0x0d →
      (s.gc_map_w B a v).svga = s.svga ∧
      ∀ o, ((s.gc_map_w B a v).mem_r B o).1 = (s.mem_r B o).1) := by
  have hsel : s.gc_map_w B 0x0c v = { s with m_video_select := v } := by
    rw [gc_map_w_unlocked B s 0x0c v hl hv (by decide) (by decide)]
    rfl
  have hlock : s.gc_map_w B 0x0d v = { s with m_crtc_lock := v } := by
    rw [gc_map_w_unlocked B s 0x0d v hl hv (by decide) (by decide)]
    rfl
  have hctl : s.gc_map_w B 0x0e v
      = { s with m_video_control := v, svga := { s.svga with rgb8_en := BIT v 0 } } := by
    rw [gc_map_w_unlocked B s 0x0e v hl hv (by decide) (by decide)]
    rfl
  have hsize : s.gc_map_w B 0x0b v = { s with m_memory_size := v } := by
    rw [gc_map_w_unlocked B s 0x0b v hl hv (by decide) (by decide)]
    rfl
  have hread : ∀ a, 0x09 ≤ a → a ≤ 0x0e →
      (s.gc_map_w B a v).gc_map_r B a
        = ((s.gc_map_w B a v).ext_gc_view1_r a, s.gc_map_w B a v) := by
    intro a h1 h2
    obtain ⟨hl2, hv2⟩ := gc_map_w_unlocked_preserves B s a v hl hv h1 h2
    exact gc_map_r_unlocked B _ a hl2 hv2 h1 h2
  refine ⟨⟨hsel, ?_⟩, ⟨hlock, ?_⟩, ⟨hctl, ?_, ?_⟩, hsize, ?_⟩
  · rw [hread 0x0c (by decide) (by decide), hsel]
    rfl
  · rw [hread 0x0d (by decide) (by decide), hlock]
    rfl
  · rw [hread 0x0e (by decide) (by decide), hctl]
    rfl
  · rw [hctl]
  · intro a ha
    have hfr : (s.gc_map_w B a v).svga = s.svga ∧ (s.gc_map_w B a v).vga = s.vga := by
      rcases ha with h | h | h
      · rw [h, hsize]
        exact ⟨rfl, rfl⟩
      · rw [h, hsel]
        exact ⟨rfl, rfl⟩
      · rw [h, hlock]
        exact ⟨rfl, rfl⟩
    exact ⟨hfr.1, fun o => (mem_r_congr B _ s o hfr.1 hfr.2).1⟩

/-- Witness for C11 on `unlocked_pvga1a`: `0xA6` written to the video-control
register `0x0e` is read back as `0xA6`. -/
theorem verbatim_byte_stores_witness :
    ((unlocked_pvga1a.gc_map_w flat_svga 0x0e 0xA6).gc_map_r flat_svga 0x0e).1 = 0xA6 :=
  congrArg Prod.fst (verbatim_byte_stores flat_svga unlocked_pvga1a 0xA6 rfl rfl).2.2.1.2.1

end verbatim

section independence

variable {β : Type}

/-- C12. Gate independence in the WD90C00: for every state and every written
value, the tier-1 unlock write (`0x0f` of the graphics-controller map) leaves
the tier-2 gate flag, tier-2 view selection and tier-2 scratch bits unchanged,
and the tier-2 unlock write (`0x29` of the CRT-controller map) leaves the
tier-1 gate flag, tier-1 view selection, `svga.bank_w`, `svga.rgb8_en` and all
tier-1 register fields unchanged; starting from reset, all four combinations
of (tier-1 locked/unlocked, tier-2 locked/unlocked) are reached. -/
theorem gate_independence (B : svga_device β) (t : wd90c00_vga_device β) (code : Nat) :
    ((t.gc_map_w B 0x0f code).m_ext_crtc_write_unlock = t.m_ext_crtc_write_unlock ∧
      (t.gc_map_w B 0x0f code).m_ext_crtc_view = t.m_ext_crtc_view ∧
      (t.gc_map_w B 0x0f code).m_pr10_scratch = t.m_pr10_scratch ∧
      (t.gc_map_w B 0x0f code).pr12_scratch = t.pr12_scratch) ∧
    ((t.crtc_map_w B 0x29 code).topvga1a_vga_device = t.topvga1a_vga_device ∧
      (t.crtc_map_w B 0x29 code).m_ext_gc_unlock = t.m_ext_gc_unlock ∧
      (t.crtc_map_w B 0x29 code).m_ext_gc_view = t.m_ext_gc_view ∧
      (t.crtc_map_w B 0x29 code).svga.bank_w = t.svga.bank_w ∧
      (t.crtc_map_w B 0x29 code).svga.rgb8_en = t.svga.rgb8_en ∧
      (t.crtc_map_w B 0x29 code).m_memory_size = t.m_memory_size ∧
      (t.crtc_map_w B 0x29 code).m_video_select = t.m_video_select ∧
      (t.crtc_map_w B 0x29 code).m_crtc_lock = t.m_crtc_lock ∧
      (t.crtc_map_w B 0x29 code).m_video_control = t.m_video_control) ∧
    (((t.device_reset B).run B []).m_ext_gc_unlock = false ∧
      ((t.device_reset B).run B []).m_ext_crtc_write_unlock = false) ∧
    (((t.device_reset B).run B [.gc_write 0x0f 0x05]).m_ext_gc_unlock = true ∧
      ((t.device_reset B).run B [.gc_write 0x0f 0x05]).m_ext_crtc_write_unlock = false) ∧
    (((t.device_reset B).run B [.crtc_write 0x29 0x05]).m_ext_gc_unlock = false ∧
      ((t.device_reset B).run B [.crtc_write 0x29 0x05]).m_ext_crtc_write_unlock = true) ∧
    (((t.device_reset B).run B [.gc_write 0x0f 0x05, .crtc_write 0x29 0x05]).m_ext_gc_unlock
        = true ∧
      ((t.device_reset B).run B
        [.gc_write 0x0f 0x05, .crtc_write 0x29 0x05]).m_ext_crtc_write_unlock = true) := by
  have hc : t.crtc_map_w B 0x29 code = t.ext_crtc_unlock_w code := by
    simp [wd90c00_vga_device.crtc_map_w]
  refine ⟨⟨rfl, rfl, rfl, rfl⟩, ?_, ⟨rfl, rfl⟩, ⟨rfl, rfl⟩, ⟨rfl, rfl⟩, ⟨rfl, rfl⟩⟩
  rw [hc]
  exact ⟨rfl, rfl, rfl, rfl, rfl, rfl, rfl, rfl, rfl⟩

end independence

/-! ## The tier-2 range and Address Offset B -/

section tier2

variable {β : Type}

theorem crtc_view_of_unlocked (t : wd90c00_vga_device β)
    (hu : t.m_ext_crtc_write_unlock = true) (hv : t.crtc_view_follows_gate) :
    t.m_ext_crtc_view = 1 := by
  rw [hv, hu]
  rfl

theorem crtc_view_of_locked (t : wd90c00_vga_device β)
    (hu : t.m_ext_crtc_write_unlock = false) (hv : t.crtc_view_follows_gate) :
    t.m_ext_crtc_view = 0 := by
  rw [hv, hu]
  rfl

/-- C13. Reserved offsets stay inert: in every state with the tier-2 gate
unlocked (flag set, view following the flag), at every offset of the guarded
range that has no handler in variant 1 (`0x2a` and `0x2c..0x3f`) a read returns
the sentinel `0xFF` and leaves the state unchanged, and a write has no effect
on the state, exactly as in the same state with the gate locked. -/
theorem reserved_offsets_inert (B : svga_device β) (t : wd90c00_vga_device β) (a v : Nat)
    (hu : t.m_ext_crtc_write_unlock = true) (hv : t.crtc_view_follows_gate)
    (ha : a = 0x2a ∨ (0x2c ≤ a ∧ a ≤ 0x3f)) :
    t.crtc_map_r B a = (0xFF, t) ∧
    t.crtc_map_w B a v = t ∧
    (wd90c00_vga_device.crtc_map_r B
        { t with m_ext_crtc_write_unlock := false, m_ext_crtc_view := 0 } a).1
      = (t.crtc_map_r B a).1 ∧
    wd90c00_vga_device.crtc_map_w B
        { t with m_ext_crtc_write_unlock := false, m_ext_crtc_view := 0 } a v
      = { t with m_ext_crtc_write_unlock := false, m_ext_crtc_view := 0 } := by
  have hview := crtc_view_of_unlocked t hu hv
  have h29 : a ≠ 0x29 := by omega
  have h2b : a ≠ 0x2b := by omega
  have hr : 0x2a ≤ a ∧ a ≤ 0x3f := by omega
  have hread : t.crtc_map_r B a = (0xFF, t) := by
    simp [wd90c00_vga_device.crtc_map_r, h29, h2b, hr, hview, unmap_value]
  refine ⟨hread, ?_, ?_, ?_⟩
  · simp [wd90c00_vga_device.crtc_map_w, h29, h2b, hr, hview]
  · rw [hread]
    simp [wd90c00_vga_device.crtc_map_r, h29, hr]
  · simp [wd90c00_vga_device.crtc_map_w, h29, hr]

/-- Witness for C13 on `unlocked_wd90c00`: the reserved offset `0x2c` reads
`0xff` and ignores a write. -/
theorem reserved_offsets_inert_witness :
    unlocked_wd90c00.crtc_map_r flat_svga 0x2c = (0xFF, unlocked_wd90c00) ∧
    unlocked_wd90c00.crtc_map_w flat_svga 0x2c 0x5A = unlocked_wd90c00 :=
  have h := reserved_offsets_inert flat_svga unlocked_wd90c00 0x2c 0x5A rfl rfl
    (Or.inr (by decide))
  ⟨h.1, h.2.1⟩

/-- C15. Tier-2 scratch register (offset `0x2b`): in every state with the
tier-2 gate unlocked, writing `v` to `0x2b` changes only the scratch byte and a
following read of `0x2b` returns `v`; in every state with the tier-2 gate
locked a read of `0x2b` returns `0xFF`, a write leaves the state (and so the
stored byte) unchanged, and after the gate is re-opened `0x2b` reads the stored
byte. -/
theorem tier2_scratch_register (B : svga_device β) :
    (∀ (t : wd90c00_vga_device β) (v : Nat),
      t.m_ext_crtc_write_unlock = true → t.crtc_view_follows_gate →
      t.crtc_map_w B 0x2b v = { t with pr12_scratch := v } ∧
      (t.crtc_map_w B 0x2b v).crtc_map_r B 0x2b = (v, t.crtc_map_w B 0x2b v)) ∧
    (∀ (t : wd90c00_vga_device β) (v code : Nat),
      t.m_ext_crtc_write_unlock = false → t.crtc_view_follows_gate →
      code &&& 0x07 = 0x05 →
      t.crtc_map_r B 0x2b = (0xFF, t) ∧
      t.crtc_map_w B 0x2b v = t ∧
      (t.crtc_map_w B 0x2b v).pr12_scratch = t.pr12_scratch ∧
      (((t.crtc_map_w B 0x2b v).crtc_map_w B 0x29 code).crtc_map_r B 0x2b).1
        = t.pr12_scratch) := by
  constructor
  · intro t v hu hv
    have hview := crtc_view_of_unlocked t hu hv
    have hw : t.crtc_map_w B 0x2b v = { t with pr12_scratch := v } := by
      simp [wd90c00_vga_device.crtc_map_w, hview]
    refine ⟨hw, ?_⟩
    rw [hw]
    simp [wd90c00_vga_device.crtc_map_r, hview]
  · intro t v code hu hv hc
    have hview := crtc_view_of_locked t hu hv
    have hw : t.crtc_map_w B 0x2b v = t := by
      simp [wd90c00_vga_device.crtc_map_w, hview]
    refine ⟨?_, hw, by rw [hw], ?_⟩
    · simp [wd90c00_vga_device.crtc_map_r, hview]
    · rw [hw]
      simp [wd90c00_vga_device.crtc_map_r, wd90c00_vga_device.crtc_map_w,
        wd90c00_vga_device.ext_crtc_unlock_w, hc, bool_to_int]

/-- Witness for C15: `0x5A` written to `0x2b` of `unlocked_wd90c00` is read
back; on `locked_wd90c00` (scratch byte `0x77`) the read gives `0xff`, the
write is ignored, and after unlocking with `0x05` the register reads `0x77`. -/
theorem tier2_scratch_register_witness :
    ((unlocked_wd90c00.crtc_map_w flat_svga 0x2b 0x5A).crtc_map_r flat_svga 0x2b).1 = 0x5A ∧
    locked_wd90c00.crtc_map_r flat_svga 0x2b = (0xFF, locked_wd90c00) ∧
    (((locked_wd90c00.crtc_map_w flat_svga 0x2b 0x5A).crtc_map_w flat_svga 0x29 0x05).crtc_map_r
      flat_svga 0x2b).1 = 0x77 :=
  ⟨congrArg Prod.fst ((tier2_scratch_register flat_svga).1 unlocked_wd90c00 0x5A rfl rfl).2,
   ((tier2_scratch_register flat_svga).2 locked_wd90c00 0x5A 0x05 rfl rfl (by decide)).1,
   ((tier2_scratch_register flat_svga).2 locked_wd90c00 0x5A 0x05 rfl rfl (by decide)).2.2.2⟩

theorem address_offset_b_write_dropped (B : svga_device β) (s : pvga1a_vga_device β) (v : Nat)
    (hl : s.m_ext_gc_unlock = true) (hv : s.view_follows_gate) :
    s.gc_map_w B 0x0a v = s ∧ s.gc_map_r B 0x0a = (0, s) := by
  constructor
  · rw [gc_map_w_unlocked B s 0x0a v hl hv (by decide) (by decide)]
    rfl
  · rw [gc_map_r_unlocked B s 0x0a hl hv (by decide) (by decide)]
    rfl

/-- C14 on the code: with the tier-1 gate open, writing `0x55` to the Address
Offset B register (`0x0a`) changes nothing in the device and a following read
of `0x0a` returns `0`, not the value written (`0x55 & 0x7F = 0x55`); the
bank-select register written in the same way does read back `0x55`. -/
theorem address_offset_b_not_stored :
    unlocked_pvga1a.gc_map_w flat_svga 0x0a 0x55 = unlocked_pvga1a ∧
    ((unlocked_pvga1a.gc_map_w flat_svga 0x0a 0x55).gc_map_r flat_svga 0x0a).1 = 0 ∧
    ((unlocked_pvga1a.gc_map_w flat_svga 0x0a 0x55).gc_map_r flat_svga 0x0a).1
      ≠ 0x55 &&& 0x7F ∧
    ((unlocked_pvga1a.gc_map_w flat_svga 0x09 0x55).gc_map_r flat_svga 0x09).1
      = 0x55 &&& 0x7F := by
  have h := address_offset_b_write_dropped flat_svga unlocked_pvga1a 0x55 rfl rfl
  refine ⟨h.1, ?_, ?_, by decide⟩
  · rw [h.1, h.2]
  · rw [h.1, h.2]
    decide

end tier2

/-! ## Invariants of reachable states -/

section invariants

variable {β : Type}

theorem gc_map_r_state (B : svga_device β) (s : pvga1a_vga_device β) (a : Nat) :
    ∃ x, (s.gc_map_r B a).2 = { s with vga := x } := by
  unfold gc_map_r
  split_ifs
  · exact ⟨s.vga, rfl⟩
  · split <;> exact ⟨s.vga, rfl⟩
  · exact ⟨_, rfl⟩

theorem gc_map_w_shape (B : svga_device β) (s : pvga1a_vga_device β) (a d : Nat) :
    (∃ x, s.gc_map_w B a d = { s with vga := x }) ∨
    s.gc_map_w B a d = s.ext_gc_unlock_w d ∨
    s.gc_map_w B a d = s.address_offset_w 0 d ∨
    s.gc_map_w B a d = s.memory_size_w d ∨
    s.gc_map_w B a d = s.video_select_w d ∨
    s.gc_map_w B a d = s.crtc_lock_w d ∨
    s.gc_map_w B a d = s.video_control_w d := by
  unfold gc_map_w
  split_ifs with h0 hr
  · exact Or.inr (Or.inl rfl)
  · split
    · unfold ext_gc_view1_w
      split_ifs with h1 h2 h3 h4
      · have ha : a = 0x09 ∨ a = 0x0a := by omega
        rcases ha with ha | ha
        · subst ha
          exact Or.inr (Or.inr (Or.inl rfl))
        · subst ha
          exact Or.inl ⟨s.vga, rfl⟩
      · exact Or.inr (Or.inr (Or.inr (Or.inl rfl)))
      · exact Or.inr (Or.inr (Or.inr (Or.inr (Or.inl rfl))))
      · exact Or.inr (Or.inr (Or.inr (Or.inr (Or.inr (Or.inl rfl)))))
      · exact Or.inr (Or.inr (Or.inr (Or.inr (Or.inr (Or.inr rfl)))))
    · exact Or.inl ⟨s.vga, rfl⟩
  · exact Or.inl ⟨_, rfl⟩

theorem mem_r_state (B : svga_device β) (s : pvga1a_vga_device β) (o : Nat) :
    ∃ x, (s.mem_r B o).2 = { s with vga := x } := by
  unfold mem_r
  split_ifs <;> exact ⟨_, rfl⟩

theorem mem_w_state (B : svga_device β) (s : pvga1a_vga_device β) (o d : Nat) :
    ∃ x, s.mem_w B o d = { s with vga := x } := by
  unfold mem_w
  split_ifs <;> exact ⟨_, rfl⟩

/-- Every bus operation on a PVGA1A changes the baseline state only, or is one
of the register writers, or is the reset. -/
theorem pvga1a_step_shape (B : svga_device β) (s : pvga1a_vga_device β) (op : bus_op) :
    (∃ x, s.step B op = { s with vga := x }) ∨
    (∃ d, s.step B op = s.ext_gc_unlock_w d) ∨
    (∃ d, s.step B op = s.address_offset_w 0 d) ∨
    (∃ d, s.step B op = s.memory_size_w d) ∨
    (∃ d, s.step B op = s.video_select_w d) ∨
    (∃ d, s.step B op = s.crtc_lock_w d) ∨
    (∃ d, s.step B op = s.video_control_w d) ∨
    s.step B op = s.device_reset B := by
  cases op with
  | gc_read a => exact Or.inl (gc_map_r_state B s a)
  | gc_write a d =>
    rcases gc_map_w_shape B s a d with h | h | h | h | h | h | h
    · exact Or.inl h
    · exact Or.inr (Or.inl ⟨d, h⟩)
    · exact Or.inr (Or.inr (Or.inl ⟨d, h⟩))
    · exact Or.inr (Or.inr (Or.inr (Or.inl ⟨d, h⟩)))
    · exact Or.inr (Or.inr (Or.inr (Or.inr (Or.inl ⟨d, h⟩))))
    · exact Or.inr (Or.inr (Or.inr (Or.inr (Or.inr (Or.inl ⟨d, h⟩)))))
    · exact Or.inr (Or.inr (Or.inr (Or.inr (Or.inr (Or.inr (Or.inl ⟨d, h⟩))))))
  | crtc_read a => exact Or.inl ⟨_, rfl⟩
  | crtc_write a d => exact Or.inl ⟨_, rfl⟩
  | mem_read o => exact Or.inl (mem_r_state B s o)
  | mem_write o d => exact Or.inl (mem_w_state B s o d)
  | reset => exact Or.inr (Or.inr (Or.inr (Or.inr (Or.inr (Or.inr (Or.inr rfl))))))

/-- The PVGA1A part of a WD90C00 after a bus operation: the operation applied
to that part, or that part with only its baseline state changed. -/
theorem wd90c00_step_parent (B : svga_device β) (t : wd90c00_vga_device β) (op : bus_op) :
    (t.step B op).topvga1a_vga_device = t.topvga1a_vga_device.step B op ∨
    ∃ x, (t.step B op).topvga1a_vga_device = { t.topvga1a_vga_device with vga := x } := by
  cases op with
  | gc_read a => exact Or.inl rfl
  | gc_write a d => exact Or.inl rfl
  | crtc_read a =>
    right
    show ∃ x, (t.crtc_map_r B a).2.topvga1a_vga_device = _
    unfold wd90c00_vga_device.crtc_map_r
    split_ifs <;>
      first
        | exact ⟨t.vga, rfl⟩
        | exact ⟨_, rfl⟩
        | (split <;> exact ⟨t.vga, rfl⟩)
  | crtc_write a d =>
    right
    show ∃ x, (t.crtc_map_w B a d).topvga1a_vga_device = _
    unfold wd90c00_vga_device.crtc_map_w
    split_ifs <;>
      first
        | exact ⟨t.vga, rfl⟩
        | exact ⟨_, rfl⟩
        | (split <;> exact ⟨t.vga, rfl⟩)
  | mem_read o => exact Or.inl rfl
  | mem_write o d => exact Or.inl rfl
  | reset => exact Or.inl rfl

theorem pvga1a_run_invariant (B : svga_device β) (I : pvga1a_vga_device β → Prop)
    (hstep : ∀ s op, I s → I (s.step B op)) (l : List bus_op) :
    ∀ s, I s → I (s.run B l) := by
  induction l with
  | nil => exact fun s h => h
  | cons op l ih => exact fun s h => ih (s.step B op) (hstep s op h)

theorem wd90c00_run_invariant (B : svga_device β) (I : wd90c00_vga_device β → Prop)
    (hstep : ∀ t op, I t → I (t.step B op)) (l : List bus_op) :
    ∀ t, I t → I (t.run B l) := by
  induction l with
  | nil => exact fun t h => h
  | cons op l ih => exact fun t h => ih (t.step B op) (hstep t op h)

end invariants

section view_gate

variable {β : Type}

theorem pvga1a_step_gate (B : svga_device β) (s : pvga1a_vga_device β) (op : bus_op) :
    ((s.step B op).m_ext_gc_unlock = s.m_ext_gc_unlock ∧
      (s.step B op).m_ext_gc_view = s.m_ext_gc_view) ∨
    (s.step B op).view_follows_gate := by
  rcases pvga1a_step_shape B s op with ⟨x, h⟩ | ⟨d, h⟩ | ⟨d, h⟩ | ⟨d, h⟩ | ⟨d, h⟩ | ⟨d, h⟩ |
    ⟨d, h⟩ | h <;> rw [h]
  · exact Or.inl ⟨rfl, rfl⟩
  · exact Or.inr rfl
  · exact Or.inl ⟨rfl, rfl⟩
  · exact Or.inl ⟨rfl, rfl⟩
  · exact Or.inl ⟨rfl, rfl⟩
  · exact Or.inl ⟨rfl, rfl⟩
  · exact Or.inl ⟨rfl, rfl⟩
  · exact Or.inr rfl

theorem wd90c00_step_gate (B : svga_device β) (t : wd90c00_vga_device β) (op : bus_op) :
    ((t.step B op).m_ext_gc_unlock = t.m_ext_gc_unlock ∧
      (t.step B op).m_ext_gc_view = t.m_ext_gc_view) ∨
    (t.step B op).view_follows_gate := by
  rcases wd90c00_step_parent B t op with h | ⟨x, h⟩
  · have := pvga1a_step_gate B t.topvga1a_vga_device op
    rw [← h] at this
    exact this
  · left
    rw [h]
    exact ⟨rfl, rfl⟩

theorem wd90c00_step_crtc_gate (B : svga_device β) (t : wd90c00_vga_device β) (op : bus_op) :
    ((t.step B op).m_ext_crtc_write_unlock = t.m_ext_crtc_write_unlock ∧
      (t.step B op).m_ext_crtc_view = t.m_ext_crtc_view) ∨
    (t.step B op).crtc_view_follows_gate := by
  cases op with
  | gc_read a => exact Or.inl ⟨rfl, rfl⟩
  | gc_write a d => exact Or.inl ⟨rfl, rfl⟩
  | crtc_read a =>
    left
    show (t.crtc_map_r B a).2.m_ext_crtc_write_unlock = _ ∧
      (t.crtc_map_r B a).2.m_ext_crtc_view = _
    unfold wd90c00_vga_device.crtc_map_r
    split_ifs <;>
      first
        | exact ⟨rfl, rfl⟩
        | (split <;> exact ⟨rfl, rfl⟩)
  | crtc_write a d =>
    show ((t.crtc_map_w B a d).m_ext_crtc_write_unlock = _ ∧
      (t.crtc_map_w B a d).m_ext_crtc_view = _) ∨ (t.crtc_map_w B a d).crtc_view_follows_gate
    unfold wd90c00_vga_device.crtc_map_w
    split_ifs <;>
      first
        | exact Or.inr rfl
        | exact Or.inl ⟨rfl, rfl⟩
        | (split <;> exact Or.inl ⟨rfl, rfl⟩)
  | mem_read o => exact Or.inl ⟨rfl, rfl⟩
  | mem_write o d => exact Or.inl ⟨rfl, rfl⟩
  | reset => exact Or.inr rfl

theorem bool_to_int_eq_one (b : Bool) : bool_to_int b = 1 ↔ b = true := by
  cases b <;> simp [bool_to_int]

/-- C16. View follows gate: in every state reached from device reset by any
sequence of register reads, register writes, memory accesses and resets, the
selected tier-1 view is the one chosen by the tier-1 gate flag (variant 1 iff
`m_ext_gc_unlock`) and the selected tier-2 view is the one chosen by the
tier-2 gate flag (variant 1 iff `m_ext_crtc_write_unlock`); every single
operation either leaves a flag and its view both as they were or sets the two
together.  Stated for the WD90C00 and for the PVGA1A on its own. -/
theorem view_follows_gate_reachable (B : svga_device β) :
    (∀ (t0 : wd90c00_vga_device β) (l : List bus_op),
      ((t0.device_reset B).run B l).view_follows_gate ∧
      ((t0.device_reset B).run B l).crtc_view_follows_gate ∧
      (((t0.device_reset B).run B l).m_ext_gc_view = 1
        ↔ ((t0.device_reset B).run B l).m_ext_gc_unlock = true) ∧
      (((t0.device_reset B).run B l).m_ext_crtc_view = 1
        ↔ ((t0.device_reset B).run B l).m_ext_crtc_write_unlock = true)) ∧
    (∀ (s0 : pvga1a_vga_device β) (l : List bus_op),
      ((s0.device_reset B).run B l).view_follows_gate ∧
      (((s0.device_reset B).run B l).m_ext_gc_view = 1
        ↔ ((s0.device_reset B).run B l).m_ext_gc_unlock = true)) ∧
    (∀ (t : wd90c00_vga_device β) (op : bus_op),
      (((t.step B op).m_ext_gc_unlock = t.m_ext_gc_unlock ∧
          (t.step B op).m_ext_gc_view = t.m_ext_gc_view) ∨
        (t.step B op).view_follows_gate) ∧
      (((t.step B op).m_ext_crtc_write_unlock = t.m_ext_crtc_write_unlock ∧
          (t.step B op).m_ext_crtc_view = t.m_ext_crtc_view) ∨
        (t.step B op).crtc_view_follows_gate)) ∧
    (∀ (s : pvga1a_vga_device β) (op : bus_op),
      ((s.step B op).m_ext_gc_unlock = s.m_ext_gc_unlock ∧
        (s.step B op).m_ext_gc_view = s.m_ext_gc_view) ∨
      (s.step B op).view_follows_gate) := by
  have hw : ∀ (t0 : wd90c00_vga_device β) (l : List bus_op),
      ((t0.device_reset B).run B l).view_follows_gate ∧
      ((t0.device_reset B).run B l).crtc_view_follows_gate := by
    intro t0 l
    refine wd90c00_run_invariant B
      (fun t => t.view_follows_gate ∧ t.crtc_view_follows_gate) ?_ l _ ⟨rfl, rfl⟩
    intro t op ⟨h1, h2⟩
    constructor
    · rcases wd90c00_step_gate B t op with ⟨hf, hv⟩ | h
      · show (t.step B op).m_ext_gc_view = bool_to_int (t.step B op).m_ext_gc_unlock
        rw [hf, hv]
        exact h1
      · exact h
    · rcases wd90c00_step_crtc_gate B t op with ⟨hf, hv⟩ | h
      · show (t.step B op).m_ext_crtc_view = bool_to_int (t.step B op).m_ext_crtc_write_unlock
        rw [hf, hv]
        exact h2
      · exact h
  have hp : ∀ (s0 : pvga1a_vga_device β) (l : List bus_op),
      ((s0.device_reset B).run B l).view_follows_gate := by
    intro s0 l
    refine pvga1a_run_invariant B (fun s => s.view_follows_gate) ?_ l _ rfl
    intro s op h1
    rcases pvga1a_step_gate B s op with ⟨hf, hv⟩ | h
    · show (s.step B op).m_ext_gc_view = bool_to_int (s.step B op).m_ext_gc_unlock
      rw [hf, hv]
      exact h1
    · exact h
  refine ⟨?_, ?_, fun t op => ⟨wd90c00_step_gate B t op, wd90c00_step_crtc_gate B t op⟩,
    fun s op => pvga1a_step_gate B s op⟩
  · intro t0 l
    obtain ⟨h1, h2⟩ := hw t0 l
    refine ⟨h1, h2, ?_, ?_⟩
    · rw [h1]
      exact bool_to_int_eq_one _
    · rw [h2]
      exact bool_to_int_eq_one _
  · intro s0 l
    have h1 := hp s0 l
    refine ⟨h1, ?_⟩
    rw [h1]
    exact bool_to_int_eq_one _

end view_gate

section window_enable

variable {β : Type}

theorem BIT_zero (x : Nat) : BIT x 0 = decide (x &&& 0x01 ≠ 0) := by
  rcases Nat.mod_two_eq_zero_or_one x with h | h <;> simp [BIT, bne, h]

theorem device_reset_window_enable (B : svga_device β) (s : pvga1a_vga_device β) :
    (s.device_reset B).svga.rgb8_en = BIT (s.device_reset B).m_video_control 0 := by
  show false = BIT 0 0
  decide

theorem wd90c00_device_reset_window_enable (B : svga_device β) (t : wd90c00_vga_device β) :
    (t.device_reset B).svga.rgb8_en = BIT (t.device_reset B).m_video_control 0 := by
  show false = BIT 0 0
  decide

theorem pvga1a_step_window_enable (B : svga_device β) (s : pvga1a_vga_device β) (op : bus_op)
    (hs : s.svga.rgb8_en = BIT s.m_video_control 0) :
    (s.step B op).svga.rgb8_en = BIT (s.step B op).m_video_control 0 := by
  rcases pvga1a_step_shape B s op with ⟨x, h⟩ | ⟨d, h⟩ | ⟨d, h⟩ | ⟨d, h⟩ | ⟨d, h⟩ | ⟨d, h⟩ |
    ⟨d, h⟩ | h <;> rw [h]
  · exact hs
  · exact hs
  · exact hs
  · exact hs
  · exact hs
  · exact hs
  · rfl
  · exact device_reset_window_enable B s

theorem wd90c00_step_window_enable (B : svga_device β) (t : wd90c00_vga_device β) (op : bus_op)
    (hs : t.svga.rgb8_en = BIT t.m_video_control 0) :
    (t.step B op).svga.rgb8_en = BIT (t.step B op).m_video_control 0 := by
  rcases wd90c00_step_parent B t op with h | ⟨x, h⟩
  · have := pvga1a_step_window_enable B t.topvga1a_vga_device op hs
    rw [← h] at this
    exact this
  · rw [h]
    exact hs

/-- C17. WindowEnable is derived from video-control: after `video_control_w(v)`
for any value `v`, `svga.rgb8_en` is `(v & 0x01) != 0` and the stored
video-control byte is `v`; and in every state reached from device reset by any
sequence of register accesses, memory accesses and resets, `svga.rgb8_en`
equals bit 0 of the stored video-control byte.  Stated for the PVGA1A and for
the WD90C00. -/
theorem window_enable_derived (B : svga_device β) :
    (∀ (s : pvga1a_vga_device β) (v : Nat),
      (s.video_control_w v).svga.rgb8_en = decide (v &&& 0x01 ≠ 0) ∧
      (s.video_control_w v).m_video_control = v ∧
      (s.video_control_w v).video_control_r = v) ∧
    (∀ (s0 : pvga1a_vga_device β) (l : List bus_op),
      ((s0.device_reset B).run B l).svga.rgb8_en
        = decide (((s0.device_reset B).run B l).m_video_control &&& 0x01 ≠ 0)) ∧
    (∀ (t0 : wd90c00_vga_device β) (l : List bus_op),
      ((t0.device_reset B).run B l).svga.rgb8_en
        = decide (((t0.device_reset B).run B l).m_video_control &&& 0x01 ≠ 0)) := by
  refine ⟨fun s v => ⟨BIT_zero v, rfl, rfl⟩, ?_, ?_⟩
  · intro s0 l
    rw [← BIT_zero]
    exact pvga1a_run_invariant B (fun s => s.svga.rgb8_en = BIT s.m_video_control 0)
      (pvga1a_step_window_enable B) l _ (device_reset_window_enable B s0)
  · intro t0 l
    rw [← BIT_zero]
    exact wd90c00_run_invariant B (fun t => t.svga.rgb8_en = BIT t.m_video_control 0)
      (wd90c00_step_window_enable B) l _ (wd90c00_device_reset_window_enable B t0)

end window_enable

section bank_bound

variable {β : Type}

theorem land_7f_le (v : Nat) : v &&& 0x7f ≤ 0x7F := Nat.and_le_right

theorem pvga1a_step_bank_bound (B : svga_device β) (s : pvga1a_vga_device β) (op : bus_op)
    (hs : s.svga.bank_w ≤ 0x7F) : (s.step B op).svga.bank_w ≤ 0x7F := by
  rcases pvga1a_step_shape B s op with ⟨x, h⟩ | ⟨d, h⟩ | ⟨d, h⟩ | ⟨d, h⟩ | ⟨d, h⟩ | ⟨d, h⟩ |
    ⟨d, h⟩ | h <;> rw [h]
  · exact hs
  · exact hs
  · exact land_7f_le d
  · exact hs
  · exact hs
  · exact hs
  · exact hs
  · exact Nat.zero_le _

theorem wd90c00_step_bank_bound (B : svga_device β) (t : wd90c00_vga_device β) (op : bus_op)
    (hs : t.svga.bank_w ≤ 0x7F) : (t.step B op).svga.bank_w ≤ 0x7F := by
  rcases wd90c00_step_parent B t op with h | ⟨x, h⟩
  · have := pvga1a_step_bank_bound B t.topvga1a_vga_device op hs
    rw [← h] at this
    exact this
  · rw [h]
    exact hs

/-- C18. Banked addresses stay inside video memory: `svga.bank_w <= 0x7F` is
preserved by every bus operation (the one writer, `address_offset_w`, masks
with `0x7F`) and holds in every state reached from reset; so for every state
satisfying it and every window offset below `0x20000` the sum
`offset + svga.bank_w * 0x1000` does not wrap, is at most `0x9EFFF`, and is
strictly below the `vram_size` of `0x100000` set by `device_start`; it is the
address `mem_r` reads when `svga.rgb8_en` is set; and for offsets in
`[0, 4095]` it is at most `0x7FFFF`. -/
theorem banked_addresses_in_vram (B : svga_device β) :
    (∀ (s : pvga1a_vga_device β) (v : Nat), (s.address_offset_w 0 v).svga.bank_w ≤ 0x7F) ∧
    (∀ (s : pvga1a_vga_device β) (op : bus_op),
      s.svga.bank_w ≤ 0x7F → (s.step B op).svga.bank_w ≤ 0x7F) ∧
    (∀ (t : wd90c00_vga_device β) (op : bus_op),
      t.svga.bank_w ≤ 0x7F → (t.step B op).svga.bank_w ≤ 0x7F) ∧
    (∀ (s0 : pvga1a_vga_device β) (l : List bus_op),
      ((s0.device_reset B).run B l).svga.bank_w ≤ 0x7F) ∧
    (∀ (t0 : wd90c00_vga_device β) (l : List bus_op),
      ((t0.device_reset B).run B l).svga.bank_w ≤ 0x7F) ∧
    (∀ (s : pvga1a_vga_device β) (offset : Nat),
      s.svga.bank_w ≤ 0x7F → offset < 0x20000 →
      (offset + s.svga.bank_w * 0x1000) % OFFS_T_MOD = offset + s.svga.bank_w * 0x1000 ∧
      offset + s.svga.bank_w * 0x1000 ≤ 0x9EFFF ∧
      offset + s.svga.bank_w * 0x1000 < vram_size ∧
      (s.svga.rgb8_en = true →
        (s.mem_r B offset).1 = (B.mem_linear_r s.vga (offset + s.svga.bank_w * 0x1000)).1)) ∧
    (∀ (s : pvga1a_vga_device β) (offset : Nat),
      s.svga.bank_w ≤ 0x7F → offset ≤ 4095 →
      offset + s.svga.bank_w * 0x1000 ≤ 0x7FFFF) ∧
    vram_size = 0x100000 := by
  refine ⟨fun s v => land_7f_le v, pvga1a_step_bank_bound B, wd90c00_step_bank_bound B,
    ?_, ?_, ?_, ?_, rfl⟩
  · intro s0 l
    exact pvga1a_run_invariant B (fun s => s.svga.bank_w ≤ 0x7F)
      (pvga1a_step_bank_bound B) l _ (Nat.zero_le _)
  · intro t0 l
    exact wd90c00_run_invariant B (fun t => t.svga.bank_w ≤ 0x7F)
      (wd90c00_step_bank_bound B) l _ (Nat.zero_le _)
  · intro s offset hb ho
    have hle : offset + s.svga.bank_w * 0x1000 ≤ 0x9EFFF := by omega
    have hmod : (offset + s.svga.bank_w * 0x1000) % OFFS_T_MOD
        = offset + s.svga.bank_w * 0x1000 := by
      apply Nat.mod_eq_of_lt
      unfold OFFS_T_MOD
      omega
    refine ⟨hmod, hle, ?_, ?_⟩
    · unfold vram_size
      omega
    · intro hen
      simp only [mem_r, hen, if_true]
      rw [hmod]
  · intro s offset hb ho
    omega

/-- Witness for C18 on `unlocked_pvga1a` (bank `0x2a`) at the last window
offset `0x1FFFF`: the address is `0x49FFF`, below the video memory size. -/
theorem banked_addresses_in_vram_witness :
    0x1FFFF + unlocked_pvga1a.svga.bank_w * 0x1000 < vram_size ∧
    (unlocked_pvga1a.step flat_svga (.gc_write 0x09 0xFF)).svga.bank_w ≤ 0x7F ∧
    0xFFF + unlocked_pvga1a.svga.bank_w * 0x1000 ≤ 0x7FFFF :=
  ⟨((banked_addresses_in_vram flat_svga).2.2.2.2.2.1 unlocked_pvga1a 0x1FFFF
      (by decide) (by decide)).2.2.1,
   (banked_addresses_in_vram flat_svga).2.1 unlocked_pvga1a (.gc_write 0x09 0xFF) (by decide),
   (banked_addresses_in_vram flat_svga).2.2.2.2.2.2.1 unlocked_pvga1a 0xFFF
      (by decide) (by decide)⟩

end bank_bound

section noninterference

variable {β : Type}

theorem svga_t_eq (a b : svga_t) (h1 : a.rgb8_en = b.rgb8_en) (h2 : a.bank_w = b.bank_w) :
    a = b := by
  cases a
  cases b
  simp_all

/-- C19. Memory translation does not depend on the lock gates: for any two
device states that agree on `svga.rgb8_en`, `svga.bank_w` and the baseline
state, whatever their gate flags, view selections and other extended registers
are, `mem_r` returns the same byte and `mem_r` / `mem_w` leave the same
baseline state, at every offset (PVGA1A and WD90C00).  In particular a write to
either unlock register changes no memory access, and after enabling banking
with the gate open, re-locking the tier-1 gate leaves the banked window
active. -/
theorem translation_independent_of_gates (B : svga_device β) :
    (∀ (s1 s2 : pvga1a_vga_device β) (o d : Nat),
      s1.svga.rgb8_en = s2.svga.rgb8_en → s1.svga.bank_w = s2.svga.bank_w → s1.vga = s2.vga →
      (s1.mem_r B o).1 = (s2.mem_r B o).1 ∧
      (s1.mem_r B o).2.vga = (s2.mem_r B o).2.vga ∧
      (s1.mem_w B o d).vga = (s2.mem_w B o d).vga) ∧
    (∀ (t1 t2 : wd90c00_vga_device β) (o d : Nat),
      t1.svga.rgb8_en = t2.svga.rgb8_en → t1.svga.bank_w = t2.svga.bank_w → t1.vga = t2.vga →
      (t1.mem_r B o).1 = (t2.mem_r B o).1 ∧
      (t1.mem_r B o).2.vga = (t2.mem_r B o).2.vga ∧
      (t1.mem_w B o d).vga = (t2.mem_w B o d).vga) ∧
    (∀ (t : wd90c00_vga_device β) (code o d : Nat),
      ((t.gc_map_w B 0x0f code).mem_r B o).1 = (t.mem_r B o).1 ∧
      ((t.gc_map_w B 0x0f code).mem_w B o d).vga = (t.mem_w B o d).vga ∧
      ((t.crtc_map_w B 0x29 code).mem_r B o).1 = (t.mem_r B o).1 ∧
      ((t.crtc_map_w B 0x29 code).mem_w B o d).vga = (t.mem_w B o d).vga) ∧
    (∀ (s : pvga1a_vga_device β) (b o : Nat),
      s.m_ext_gc_unlock = true → s.view_follows_gate →
      ((((s.gc_map_w B 0x09 b).gc_map_w B 0x0e 0x01).gc_map_w B 0x0f 0x00).m_ext_gc_unlock
          = false) ∧
      ((((s.gc_map_w B 0x09 b).gc_map_w B 0x0e 0x01).gc_map_w B 0x0f 0x00).svga.rgb8_en
          = true) ∧
      ((((s.gc_map_w B 0x09 b).gc_map_w B 0x0e 0x01).gc_map_w B 0x0f 0x00).mem_r B o).1
        = (B.mem_linear_r s.vga ((o + (b &&& 0x7F) * 0x1000) % OFFS_T_MOD)).1) := by
  have hp : ∀ (s1 s2 : pvga1a_vga_device β) (o d : Nat),
      s1.svga.rgb8_en = s2.svga.rgb8_en → s1.svga.bank_w = s2.svga.bank_w → s1.vga = s2.vga →
      (s1.mem_r B o).1 = (s2.mem_r B o).1 ∧
      (s1.mem_r B o).2.vga = (s2.mem_r B o).2.vga ∧
      (s1.mem_w B o d).vga = (s2.mem_w B o d).vga := by
    intro s1 s2 o d h1 h2 h3
    have hs := svga_t_eq s1.svga s2.svga h1 h2
    exact ⟨(mem_r_congr B s1 s2 o hs h3).1, (mem_r_congr B s1 s2 o hs h3).2,
      mem_w_congr B s1 s2 o d hs h3⟩
  refine ⟨hp, ?_, ?_, ?_⟩
  · intro t1 t2 o d h1 h2 h3
    exact hp t1.topvga1a_vga_device t2.topvga1a_vga_device o d h1 h2 h3
  · intro t code o d
    have hg : (t.gc_map_w B 0x0f code).topvga1a_vga_device
        = t.topvga1a_vga_device.ext_gc_unlock_w code := by
      show t.topvga1a_vga_device.gc_map_w B 0x0f code = _
      exact gc_map_w_0f B _ code
    have hc : t.crtc_map_w B 0x29 code = t.ext_crtc_unlock_w code := by
      simp [wd90c00_vga_device.crtc_map_w]
    have h1 := hp (t.topvga1a_vga_device.ext_gc_unlock_w code) t.topvga1a_vga_device o d
      rfl rfl rfl
    refine ⟨?_, ?_, ?_, ?_⟩
    · show (pvga1a_vga_device.mem_r B (t.gc_map_w B 0x0f code).topvga1a_vga_device o).1 = _
      rw [hg]
      exact h1.1
    · show (pvga1a_vga_device.mem_w B (t.gc_map_w B 0x0f code).topvga1a_vga_device o d).vga = _
      rw [hg]
      exact h1.2.2
    · rw [hc]
      rfl
    · rw [hc]
      rfl
  · intro s b o hl hv
    have h1 : s.gc_map_w B 0x09 b = { s with svga := { s.svga with bank_w := b &&& 0x7F } } := by
      rw [gc_map_w_unlocked B s 0x09 b hl hv (by decide) (by decide)]
      rfl
    obtain ⟨hl1, hv1⟩ := gc_map_w_unlocked_preserves B s 0x09 b hl hv (by decide) (by decide)
    have h2 : (s.gc_map_w B 0x09 b).gc_map_w B 0x0e 0x01
        = { s with m_video_control := 0x01,
                   svga := { rgb8_en := true, bank_w := b &&& 0x7F } } := by
      rw [gc_map_w_unlocked B _ 0x0e 0x01 hl1 hv1 (by decide) (by decide), h1]
      rfl
    rw [h2, gc_map_w_0f]
    refine ⟨rfl, rfl, ?_⟩
    simp only [mem_r, ext_gc_unlock_w, if_true]

/-- Witness for C19: `locked_pvga1a` and `unlocked_pvga1a` differ only in the
tier-1 gate and read the same byte at offset `0x10`; and on `unlocked_pvga1a`
the sequence bank `0x2A`, enable, re-lock still reads through the bank. -/
theorem translation_independent_of_gates_witness :
    (locked_pvga1a.mem_r flat_svga 0x10).1 = (unlocked_pvga1a.mem_r flat_svga 0x10).1 ∧
    ((((unlocked_pvga1a.gc_map_w flat_svga 0x09 0x2A).gc_map_w flat_svga 0x0e 0x01).gc_map_w
        flat_svga 0x0f 0x00).mem_r flat_svga 0x10).1
      = (flat_svga.mem_linear_r unlocked_pvga1a.vga
          ((0x10 + (0x2A &&& 0x7F) * 0x1000) % OFFS_T_MOD)).1 :=
  ⟨((translation_independent_of_gates flat_svga).1 locked_pvga1a unlocked_pvga1a 0x10 0
      rfl rfl rfl).1,
   ((translation_independent_of_gates flat_svga).2.2.2 unlocked_pvga1a 0x2A 0x10
      rfl rfl).2.2⟩

end noninterference

end Paradise
